import Mathlib

/-!
# Software page-table walker (`lib/sbi/sbi_ptw.c`)

A shallow embedding of the walker and of the functions it is built from.

Conventions of the embedding:

* `sbi_addr_t`, `sbi_pte_t` and `ulong` are 64-bit unsigned (RV64); they are
  natural numbers, and arithmetic that can leave the range is reduced mod `2 ^ 64`;
* `int` variables (`va_bits`, `shift`, the return code) are integers;
* a C shift whose amount is negative or at least 64 has no defined result; the
  operations that shift return `Option` and the walker ends in `Outcome.undefined`;
  the compiled walker executes a shift instruction all the same, and the definitions
  ending in `_on` run the same code on a hart that supplies a result for such shifts;
* `sbi_panic` does not return: a run that reaches it ends in `Outcome.panic`;
* the state that the C code reaches through pointers (`trap`, `out`), the hart
  (`mtvec`, memory) and the sequence of console lines and loader calls are passed
  explicitly in `State`.
-/

namespace SbiPtw

/-! ## Constants of the headers -/

/-- Modelled from the spec: `CAUSE_FETCH_PAGE_FAULT` of `sbi/riscv_encoding.h`
(header not in the source tree), the fetch page-fault cause. -/
def CAUSE_FETCH_PAGE_FAULT : Nat := 12

/-- Modelled from the spec: `CAUSE_LOAD_PAGE_FAULT` of `sbi/riscv_encoding.h`
(header not in the source tree), the load page-fault cause. -/
def CAUSE_LOAD_PAGE_FAULT : Nat := 13

/-- Modelled from the spec: `CAUSE_STORE_PAGE_FAULT` of `sbi/riscv_encoding.h`
(header not in the source tree), the store page-fault cause. -/
def CAUSE_STORE_PAGE_FAULT : Nat := 15

/-- Modelled from the spec: `CAUSE_FETCH_GUEST_PAGE_FAULT` of `sbi/riscv_encoding.h`
(header not in the source tree), the fetch guest-page-fault cause. -/
def CAUSE_FETCH_GUEST_PAGE_FAULT : Nat := 20

/-- Modelled from the spec: `CAUSE_LOAD_GUEST_PAGE_FAULT` of `sbi/riscv_encoding.h`
(header not in the source tree), the load guest-page-fault cause. -/
def CAUSE_LOAD_GUEST_PAGE_FAULT : Nat := 21

/-- Modelled from the spec: `CAUSE_STORE_GUEST_PAGE_FAULT` of `sbi/riscv_encoding.h`
(header not in the source tree), the store guest-page-fault cause. -/
def CAUSE_STORE_GUEST_PAGE_FAULT : Nat := 23

/-- Modelled from the spec: `SBI_EINVAL` of `sbi/sbi_error.h` (header not in the
source tree), the invalid-argument-class return code. -/
def SBI_EINVAL : Int := -3

/-- Modelled from the spec: `SATP_MODE_SHIFT` of `sbi/riscv_encoding.h` (header not
in the source tree) on RV64: the stage-1 mode field is `vsatp >> 60`. -/
def SATP_MODE_SHIFT : Nat := 60

/-- Modelled from the spec: `SATP_MODE_OFF` of `sbi/riscv_encoding.h` (header not in
the source tree), the bare stage-1 mode. -/
def SATP_MODE_OFF : Nat := 0

/-- Modelled from the spec: `HGATP_MODE_SHIFT` of `sbi/riscv_encoding.h` (header not
in the source tree) on RV64: the stage-2 mode field is `hgatp >> 60`. -/
def HGATP_MODE_SHIFT : Nat := 60

/-- Modelled from the spec: `HGATP_MODE_SV39X4` of `sbi/riscv_encoding.h` (header not
in the source tree), the Sv39x4 selector. -/
def HGATP_MODE_SV39X4 : Nat := 8

/-- Modelled from the spec: `HGATP_PPN` of `sbi/riscv_encoding.h` (header not in the
source tree) on RV64: the mask of the low 44 bits of `hgatp`. -/
def HGATP_PPN : Nat := 2 ^ 44 - 1

/-- Modelled from the spec: `PAGE_SHIFT` of `sbi/riscv_asm.h` (header not in the
source tree): pages are 4096 bytes. -/
def PAGE_SHIFT : Nat := 12

/-- The value of `sizeof(sbi_pte_t)` on RV64. -/
def sizeof_sbi_pte_t : Nat := 8

/-! ## Data model -/

/-- Modelled from the spec: `struct sbi_trap_info` of `sbi/sbi_trap.h` (header not in
the source tree), the FaultInfo record: cause code, faulting instruction encoding,
faulting address, secondary faulting address. -/
structure sbi_trap_info where
  cause : Nat
  tinst : Nat
  tval : Nat
  tval2 : Nat
  deriving DecidableEq, Repr

/-- Modelled from the spec: `struct sbi_ptw_csr` of `sbi/sbi_ptw.h` (header not in the
source tree), the TranslationContext: the registers governing stage-1 (`vsatp`) and
stage-2 (`hgatp`) translation. -/
structure sbi_ptw_csr where
  vsatp : Nat
  hgatp : Nat
  deriving DecidableEq, Repr

/-- Modelled from the spec: `struct sbi_ptw_out` of `sbi/sbi_ptw.h` (header not in the
source tree), the TranslationOutput: destination for the resolved address. -/
structure sbi_ptw_out where
  addr : Nat
  deriving DecidableEq, Repr

/-- Result of one XLEN-wide load issued to the memory system: the value read, or a
synchronous exception with its cause. -/
inductive LoadResult
  | value (v : Nat)
  | fault (mcause : Nat)
  deriving DecidableEq, Repr

/-- A load issued by the hart, recorded with the content of the `mtvec` register at
the moment the load was issued. -/
structure BusLoad where
  addr : Nat
  mtvec_at_load : Nat
  deriving DecidableEq, Repr

/-- The part of the hart that `sbi_load_pte_pa` touches.

* `mtvec`: the `CSR_MTVEC` register;
* `expected_trap_addr`: what `sbi_hart_expected_trap_addr()` returns;
* `mem`: what a load from a physical address yields;
* `landing`: what the code at the expected-trap address (firmware code outside the
  source tree) writes to the FaultInfo whose address is in `a3`, given the cause of
  the exception, before it resumes at the instruction after the faulting load;
* `stale`: the content of the register allocated to `ret` when the load instruction
  does not write it (the operand is output-only, so the value is unspecified);
* `bus`: the loads issued so far, oldest first. -/
structure Machine where
  mtvec : Nat
  expected_trap_addr : Nat
  mem : Nat → LoadResult
  landing : Nat → sbi_trap_info → sbi_trap_info
  stale : Nat
  bus : List BusLoad

/-- Console lines and loader calls of the walker, in program order. -/
inductive Event
  /-- Line 106: `sbi_printf("%s: load pte 0x%lx\n", ...)`. -/
  | printf_load_pte (entry_addr : Nat)
  /-- Line 109: the call `mode->load_pte(entry_addr, csr, trap)`. -/
  | call_load_pte (entry_addr : Nat)
  /-- Line 113: `sbi_printf("%s: load pte failed %ld\n", ...)`. -/
  | printf_load_failed (cause : Nat)
  /-- Line 118: `sbi_printf("%s: pte is %016lx\n", ...)`. -/
  | printf_pte_is (pte : Nat)
  /-- Line 121: `sbi_printf("%s: pte not valid\n", ...)`. -/
  | printf_pte_not_valid
  deriving DecidableEq, Repr

/-- Everything a call can read or write besides its by-value arguments. -/
structure State where
  trap : sbi_trap_info
  out : sbi_ptw_out
  hw : Machine
  trace : List Event

/-- The four calls of `sbi_panic` in the file. -/
inductive PanicMsg
  /-- Line 130: `sbi_panic("%s: todo", __func__)`. -/
  | todo
  /-- Line 133: `sbi_panic("dunno")`. -/
  | dunno
  /-- Line 155: `sbi_panic("not bare")`. -/
  | not_bare
  /-- Line 159: `sbi_panic("not sv39x4")`. -/
  | not_sv39x4
  deriving DecidableEq, Repr

/-- How a call ends: it returns a code, it reaches `sbi_panic` (which does not
return), or it executes an operation without defined behaviour. -/
inductive Outcome
  | ret (code : Int) (s : State)
  | panic (msg : PanicMsg) (s : State)
  | undefined

/-- The type `sbi_load_pte_func`: an entry loader takes the entry address, the
context and the FaultInfo, may use the hart, and returns the entry. -/
abbrev sbi_load_pte_func : Type :=
  Nat → sbi_ptw_csr → sbi_trap_info → Machine → Nat × sbi_trap_info × Machine

/-- The `struct sbi_ptw_mode` of lines 9-13; `parts` is `char parts[8]`, whose
elements are widths in bits, kept as natural numbers. -/
structure sbi_ptw_mode where
  load_pte : sbi_load_pte_func
  addr_signed : Bool
  parts : Fin 8 → Nat

/-- An initialiser `{ p0, p1, ... }` of `char parts[8]`: slots not given are zero. -/
def parts_init (l : List Nat) : Fin 8 → Nat := fun i => l.getD i.val 0

/-! ## Machine arithmetic -/

/-- Logical right shift of a 64-bit unsigned value by an `int` amount. -/
def shr_u64 (a : Nat) (s : Int) : Option Nat :=
  if 0 ≤ s ∧ s < 64 then some (a >>> s.toNat) else none

/-- The conversion `(int64_t)addr` of a 64-bit unsigned value. -/
def to_int64 (a : Nat) : Int :=
  if a < 2 ^ 63 then (a : Int) else (a : Int) - 2 ^ 64

/-- Arithmetic right shift of an `int64_t` by an `int` amount. -/
def shr_i64 (a : Int) (s : Int) : Option Int :=
  if 0 ≤ s ∧ s < 64 then some (a >>> s.toNat) else none

/-- Left shift `1UL << s`. -/
def shl_one_u64 (s : Nat) : Option Nat :=
  if s < 64 then some (2 ^ s) else none

/-! ## The functions of the file -/

/-- Lines 63-72, `addr_valid`. -/
def addr_valid (addr : Nat) (mode : sbi_ptw_mode) (va_bits : Int) : Option Bool :=
  if mode.addr_signed then
    (shr_i64 (to_int64 addr) (va_bits - 1)).map fun a => a == 0 || a == -1
  else
    (shr_u64 addr va_bits).map fun a => a == 0

/-- Lines 30-53, `sbi_load_pte_pa`. The statements of the `asm` block are executed in
order; a load that faults traps to the address held in `mtvec` at that moment, which
is the expected-trap address: the landing path of the hart runs, and execution
resumes at the `csrw`. -/
def sbi_load_pte_pa : sbi_load_pte_func := fun addr _csr trap m =>
  -- register ulong mtvec = sbi_hart_expected_trap_addr();
  let mtvec_reg := m.expected_trap_addr
  -- sbi_pte_t ret = 0;   (`ret` is an output-only operand: the block does not read it)
  -- trap->cause = 0;
  let trap : sbi_trap_info := { trap with cause := 0 }
  -- add %[tinfo], %[taddr], zero   (`a3` holds the address of `trap` for the landing path)
  -- csrrw %[mtvec], CSR_MTVEC, %[mtvec]
  let old_csr := m.mtvec
  let m : Machine := { m with mtvec := mtvec_reg }
  let mtvec_reg := old_csr
  -- REG_L %[ret], %[addr]
  let m : Machine := { m with bus := m.bus ++ [{ addr := addr, mtvec_at_load := m.mtvec }] }
  let loaded : Nat × sbi_trap_info :=
    match m.mem addr with
    | LoadResult.value v => (v, trap)
    | LoadResult.fault c => (m.stale, m.landing c trap)
  -- csrw CSR_MTVEC, %[mtvec]
  let m : Machine := { m with mtvec := mtvec_reg }
  -- return ret;
  (loaded.1, loaded.2, m)

/-- Lines 55-61, `sbi_load_pte_gpa`. -/
def sbi_load_pte_gpa : sbi_load_pte_func := fun _addr _csr trap m =>
  (0, { trap with cause := 0 }, m)

/-- Lines 22-24, the geometry `sbi_ptw_sv39x4`. -/
def sbi_ptw_sv39x4 : sbi_ptw_mode :=
  { load_pte := sbi_load_pte_pa, addr_signed := false, parts := parts_init [12, 9, 9, 11, 0] }

/-- Lines 26-28, the geometry `sbi_ptw_sv39`. -/
def sbi_ptw_sv39 : sbi_ptw_mode :=
  { load_pte := sbi_load_pte_gpa, addr_signed := true, parts := parts_init [12, 9, 9, 9, 0] }

/-- The read `mode->parts[i]`; an index outside the 8 slots has no defined value. -/
def read_parts (mode : sbi_ptw_mode) (i : Nat) : Option Nat :=
  if h : i < 8 then some (mode.parts ⟨i, h⟩) else none

/-- Lines 84-87, the level-counting loop, from `num_levels` and `va_bits` on. The
result is `(num_levels, va_bits)` at the exit of the loop. The ninth read is already
outside the array, so 9 units of fuel never run out before the loop has ended. -/
def count_levels (mode : sbi_ptw_mode) : Nat → Nat → Int → Option (Nat × Int)
  | 0, _, _ => none
  | fuel + 1, num_levels, va_bits =>
    match read_parts mode num_levels with
    | none => none
    | some p =>
      if p ≠ 0 then count_levels mode fuel (num_levels + 1) (va_bits + (p : Int))
      else some (num_levels, va_bits)

/-- Appends an event to the trace. -/
def State.log (s : State) (e : Event) : State :=
  { s with trace := s.trace ++ [e] }

/-- The four assignments of lines 90-93 and of lines 122-125. -/
def load_page_fault : sbi_trap_info :=
  { cause := CAUSE_LOAD_PAGE_FAULT, tinst := 0, tval := 0, tval2 := 0 }

/-- Lines 102-130, the body of the level loop at `level`, entered with the running
`shift` and the table base `node`. Every path through the body leaves the function
(lines 115, 127 and 130). -/
def walk_level (addr : Nat) (csr : sbi_ptw_csr) (mode : sbi_ptw_mode)
    (level : Nat) (shift : Int) (node : Nat) (s : State) : Outcome :=
  match read_parts mode level with
  | none => Outcome.undefined
  | some part =>
    -- shift -= mode->parts[level];
    let shift := shift - (part : Int)
    -- mask = (1UL << mode->parts[level]) - 1;
    match shl_one_u64 part with
    | none => Outcome.undefined
    | some one_shl =>
      let mask := one_shl - 1
      -- addr_part = (addr >> shift) & mask;
      match shr_u64 addr shift with
      | none => Outcome.undefined
      | some shifted =>
        let addr_part := shifted &&& mask
        let entry_addr := (node + addr_part * sizeof_sbi_pte_t) % 2 ^ 64
        let s := s.log (Event.printf_load_pte entry_addr)
        -- pte = mode->load_pte(node + addr_part * sizeof(sbi_pte_t), csr, trap);
        let s := s.log (Event.call_load_pte entry_addr)
        let r := mode.load_pte entry_addr csr s.trap s.hw
        let pte := r.1
        let s : State := { s with trap := r.2.1, hw := r.2.2 }
        if s.trap.cause ≠ 0 then
          Outcome.ret SBI_EINVAL (s.log (Event.printf_load_failed s.trap.cause))
        else
          let s := s.log (Event.printf_pte_is pte)
          if pte &&& 1 ≠ 1 then
            let s := s.log Event.printf_pte_not_valid
            Outcome.ret SBI_EINVAL { s with trap := load_page_fault }
          else
            Outcome.panic PanicMsg.todo s

/-- Lines 101-133, the level loop `for (level = ...; level >= 1; level--)` and the
`sbi_panic("dunno")` after it. The body never falls through to `level--`, so the loop
either runs its body once or not at all. -/
def walk_levels (addr : Nat) (csr : sbi_ptw_csr) (mode : sbi_ptw_mode)
    (level : Nat) (shift : Int) (node : Nat) (s : State) : Outcome :=
  if 1 ≤ level then walk_level addr csr mode level shift node s
  else Outcome.panic PanicMsg.dunno s

/-- Lines 74-134, `sbi_pt_walk`. The level loop starts at `num_levels - 1`; for
`num_levels = 0` the C value is `-1` and the value here is 0, and the loop test
`level >= 1` fails for both. -/
def sbi_pt_walk (addr pt_root : Nat) (csr : sbi_ptw_csr) (mode : sbi_ptw_mode)
    (s : State) : Outcome :=
  match count_levels mode 9 0 0 with
  | none => Outcome.undefined
  | some (num_levels, va_bits) =>
    match addr_valid addr mode va_bits with
    | none => Outcome.undefined
    | some false => Outcome.ret SBI_EINVAL { s with trap := load_page_fault }
    | some true => walk_levels addr csr mode (num_levels - 1) va_bits pt_root s

/-- Lines 136-148, `convert_pf_to_gpf`. -/
def convert_pf_to_gpf (cause : Nat) : Nat :=
  if cause = CAUSE_LOAD_PAGE_FAULT then CAUSE_LOAD_GUEST_PAGE_FAULT
  else if cause = CAUSE_STORE_PAGE_FAULT then CAUSE_STORE_GUEST_PAGE_FAULT
  else if cause = CAUSE_FETCH_PAGE_FAULT then CAUSE_FETCH_GUEST_PAGE_FAULT
  else cause

/-- The root-table argument of line 162, `(csr->hgatp & HGATP_PPN) << PAGE_SHIFT`. -/
def pt_root_of (hgatp : Nat) : Nat :=
  ((hgatp &&& HGATP_PPN) <<< PAGE_SHIFT) % 2 ^ 64

/-- Line 165, `trap->cause = convert_pf_to_gpf(trap->cause)`. -/
def remap_cause (s : State) : State :=
  { s with trap := { s.trap with cause := convert_pf_to_gpf s.trap.cause } }

/-- Lines 150-167, `sbi_ptw_translate`. -/
def sbi_ptw_translate (gva : Nat) (csr : sbi_ptw_csr) (s : State) : Outcome :=
  if csr.vsatp >>> SATP_MODE_SHIFT ≠ SATP_MODE_OFF then
    Outcome.panic PanicMsg.not_bare s
  else if csr.hgatp >>> HGATP_MODE_SHIFT ≠ HGATP_MODE_SV39X4 then
    Outcome.panic PanicMsg.not_sv39x4 s
  else
    match sbi_pt_walk gva (pt_root_of csr.hgatp) csr sbi_ptw_sv39x4 s with
    | Outcome.ret code s1 => Outcome.ret code (remap_cause s1)
    | Outcome.panic msg s1 => Outcome.panic msg s1
    | Outcome.undefined => Outcome.undefined

/-! ## The walker on a hart -/

/-- What the shift instructions of the hart yield for an amount outside 0..63, where
C defines no result: `shr_u a s` for `a >> s` on a 64-bit unsigned value, `shr_i a s`
for `a >> s` on an `int64_t`, and `shl_one s` for `1UL << s`. -/
structure ShiftUnit where
  shr_u : Nat → Int → Nat
  shr_i : Int → Int → Int
  shl_one : Nat → Nat

/-- Logical right shift on the hart: the C result when there is one. -/
def shr_u64_on (u : ShiftUnit) (a : Nat) (s : Int) : Nat :=
  (shr_u64 a s).getD (u.shr_u a s)

/-- Arithmetic right shift on the hart: the C result when there is one. -/
def shr_i64_on (u : ShiftUnit) (a : Int) (s : Int) : Int :=
  (shr_i64 a s).getD (u.shr_i a s)

/-- Left shift `1UL << s` on the hart: the C result when there is one. -/
def shl_one_u64_on (u : ShiftUnit) (s : Nat) : Nat :=
  (shl_one_u64 s).getD (u.shl_one s)

/-- Lines 63-72, `addr_valid`, on the hart. -/
def addr_valid_on (u : ShiftUnit) (addr : Nat) (mode : sbi_ptw_mode) (va_bits : Int) : Bool :=
  if mode.addr_signed then
    shr_i64_on u (to_int64 addr) (va_bits - 1) == 0 ||
      shr_i64_on u (to_int64 addr) (va_bits - 1) == -1
  else
    shr_u64_on u addr va_bits == 0

/-- Lines 102-130, the body of the level loop, on the hart. -/
def walk_level_on (u : ShiftUnit) (addr : Nat) (csr : sbi_ptw_csr) (mode : sbi_ptw_mode)
    (level : Nat) (shift : Int) (node : Nat) (s : State) : Outcome :=
  match read_parts mode level with
  | none => Outcome.undefined
  | some part =>
    -- shift -= mode->parts[level];
    let shift := shift - (part : Int)
    -- mask = (1UL << mode->parts[level]) - 1;
    let mask := shl_one_u64_on u part - 1
    -- addr_part = (addr >> shift) & mask;
    let addr_part := shr_u64_on u addr shift &&& mask
    let entry_addr := (node + addr_part * sizeof_sbi_pte_t) % 2 ^ 64
    let s := s.log (Event.printf_load_pte entry_addr)
    -- pte = mode->load_pte(node + addr_part * sizeof(sbi_pte_t), csr, trap);
    let s := s.log (Event.call_load_pte entry_addr)
    let r := mode.load_pte entry_addr csr s.trap s.hw
    let pte := r.1
    let s : State := { s with trap := r.2.1, hw := r.2.2 }
    if s.trap.cause ≠ 0 then
      Outcome.ret SBI_EINVAL (s.log (Event.printf_load_failed s.trap.cause))
    else
      let s := s.log (Event.printf_pte_is pte)
      if pte &&& 1 ≠ 1 then
        let s := s.log Event.printf_pte_not_valid
        Outcome.ret SBI_EINVAL { s with trap := load_page_fault }
      else
        Outcome.panic PanicMsg.todo s

/-- Lines 101-133, the level loop and the `sbi_panic("dunno")` after it, on the hart. -/
def walk_levels_on (u : ShiftUnit) (addr : Nat) (csr : sbi_ptw_csr) (mode : sbi_ptw_mode)
    (level : Nat) (shift : Int) (node : Nat) (s : State) : Outcome :=
  if 1 ≤ level then walk_level_on u addr csr mode level shift node s
  else Outcome.panic PanicMsg.dunno s

/-- Lines 74-134, `sbi_pt_walk`, on the hart. Only a geometry without zero terminator
in its 8 slots leaves the run without a defined end. -/
def sbi_pt_walk_on (u : ShiftUnit) (addr pt_root : Nat) (csr : sbi_ptw_csr)
    (mode : sbi_ptw_mode) (s : State) : Outcome :=
  match count_levels mode 9 0 0 with
  | none => Outcome.undefined
  | some (num_levels, va_bits) =>
    if addr_valid_on u addr mode va_bits then
      walk_levels_on u addr csr mode (num_levels - 1) va_bits pt_root s
    else
      Outcome.ret SBI_EINVAL { s with trap := load_page_fault }

/-! ## Descriptions used in the statements -/

/-- Sign-extension to 64 bits of the low `w` bits of `a`: bit `w - 1` is copied into
every bit from `w` to 63. -/
def sign_extend (w : Nat) (a : Nat) : Nat :=
  if (a % 2 ^ w).testBit (w - 1) then a % 2 ^ w + (2 ^ 64 - 2 ^ w) else a % 2 ^ w

/-- The width stored in slot `i` of the geometry, and 0 outside the 8 slots. -/
def parts_at (mode : sbi_ptw_mode) (i : Nat) : Nat :=
  (read_parts mode i).getD 0

/-- Sum of the widths of slots `k` to `n - 1`. -/
def width_sum (mode : sbi_ptw_mode) (k n : Nat) : Nat :=
  ∑ i in Finset.Ico k n, parts_at mode i

/-- The entry address `node + index * sizeof(sbi_pte_t)` of the level `level`, where
the index is the field of `addr` of the width of that level, taken below the running
`shift` the level is entered with. -/
def entry_addr_of (mode : sbi_ptw_mode) (addr node level : Nat) (shift : Int) : Nat :=
  (node + ((addr >>> (shift - (parts_at mode level : Int)).toNat) &&&
      (2 ^ parts_at mode level - 1)) * 8) % 2 ^ 64

/-- The loader calls of a trace, in order. -/
def loader_calls : List Event → List Nat
  | [] => []
  | Event.call_load_pte a :: t => a :: loader_calls t
  | _ :: t => loader_calls t

/-- How one pass through the level-loop body ends once its shifts have produced the
entry address `ea`: the loader is called for `ea`; a nonzero cause ends the walk with
the FaultInfo of the loader, a clear bit 0 of the entry ends it with the load page
fault, and a set bit 0 leads to `sbi_panic("todo")`. -/
def level_result (mode : sbi_ptw_mode) (csr : sbi_ptw_csr) (s : State) (ea : Nat) : Outcome :=
  if (mode.load_pte ea csr s.trap s.hw).2.1.cause ≠ 0 then
    Outcome.ret SBI_EINVAL
      { trap := (mode.load_pte ea csr s.trap s.hw).2.1
        out := s.out
        hw := (mode.load_pte ea csr s.trap s.hw).2.2
        trace := s.trace ++ [Event.printf_load_pte ea, Event.call_load_pte ea,
          Event.printf_load_failed (mode.load_pte ea csr s.trap s.hw).2.1.cause] }
  else if (mode.load_pte ea csr s.trap s.hw).1.testBit 0 = false then
    Outcome.ret SBI_EINVAL
      { trap := load_page_fault
        out := s.out
        hw := (mode.load_pte ea csr s.trap s.hw).2.2
        trace := s.trace ++ [Event.printf_load_pte ea, Event.call_load_pte ea,
          Event.printf_pte_is (mode.load_pte ea csr s.trap s.hw).1,
          Event.printf_pte_not_valid] }
  else
    Outcome.panic PanicMsg.todo
      { trap := (mode.load_pte ea csr s.trap s.hw).2.1
        out := s.out
        hw := (mode.load_pte ea csr s.trap s.hw).2.2
        trace := s.trace ++ [Event.printf_load_pte ea, Event.call_load_pte ea,
          Event.printf_pte_is (mode.load_pte ea csr s.trap s.hw).1] }

/-- What a caller can observe of a call: that it returned, with which code and which
cause in the FaultInfo; or that it reached `sbi_panic`, with which message (nothing
is reported to the caller then); or that its behaviour is not defined. -/
inductive Verdict
  | returned (code : Int) (cause : Nat)
  | aborted (msg : PanicMsg)
  | undefined
  deriving DecidableEq, Repr

/-- The verdict of an outcome. -/
def Outcome.verdict : Outcome → Verdict
  | Outcome.ret code s => Verdict.returned code s.trap.cause
  | Outcome.panic msg _ => Verdict.aborted msg
  | Outcome.undefined => Verdict.undefined

/-- A loader that resets the cause before it does anything else, on the hart `m` and
with the context `csr`: the entry it returns, the cause it leaves and its effect on the
hart are the same whatever FaultInfo it is handed. -/
def loader_ignores_fault_info (f : sbi_load_pte_func) (csr : sbi_ptw_csr) (m : Machine) : Prop :=
  ∀ (ea : Nat) (t1 t2 : sbi_trap_info),
    (f ea csr t1 m).1 = (f ea csr t2 m).1 ∧
    (f ea csr t1 m).2.1.cause = (f ea csr t2 m).2.1.cause ∧
    (f ea csr t1 m).2.2 = (f ea csr t2 m).2.2

/-- A geometry has its zero terminator in slot `n`: the slots before `n` are nonzero
and slot `n`, one of the 8 slots, is zero. -/
def terminator_at (mode : sbi_ptw_mode) (n : Nat) : Prop :=
  n < 8 ∧ parts_at mode n = 0 ∧ ∀ i, i < n → parts_at mode i ≠ 0

/-! ## Sample inputs -/

/-- A memory whose entry at `0x80000008` is a valid leaf (`0x200000cf`: bits V, R, W, X
set, page number `0x80000`), whose entry at `0x80000010` has the valid bit clear, and
where every other load raises a load access fault (cause 5). -/
def sample_mem : Nat → LoadResult := fun a =>
  if a = 0x80000008 then LoadResult.value 0x200000cf
  else if a = 0x80000010 then LoadResult.value 0x20
  else LoadResult.fault 5

/-- Modelled from the spec: the expected-trap landing path (firmware code outside the
source tree) records the cause and zeroed auxiliary fields in the FaultInfo. -/
def expected_trap_landing (mcause : Nat) (_trap : sbi_trap_info) : sbi_trap_info :=
  { cause := mcause, tinst := 0, tval := 0, tval2 := 0 }

/-- A hart with `sample_mem`, `mtvec = 0x1000`, expected-trap address `0x2000` and the
landing path `expected_trap_landing`. -/
def sample_hw : Machine :=
  { mtvec := 0x1000, expected_trap_addr := 0x2000, mem := sample_mem,
    landing := expected_trap_landing, stale := 77, bus := [] }

/-- A state with stale FaultInfo and output buffer contents and an empty trace. -/
def sample_state : State :=
  { trap := { cause := 99, tinst := 1, tval := 2, tval2 := 3 }, out := { addr := 5 },
    hw := sample_hw, trace := [] }

/-- A context with stage-1 bare, stage-2 Sv39x4 and the root table at `0x80000000`. -/
def sample_csr : sbi_ptw_csr :=
  { vsatp := 0, hgatp := 8 * 2 ^ 60 + 0x80000 }

/-- An unsigned geometry with a 12-bit offset and a single 9-bit index level. -/
def sample_one_level : sbi_ptw_mode :=
  { load_pte := sbi_load_pte_pa, addr_signed := false, parts := parts_init [12, 9, 0] }

/-- An unsigned zero-terminated geometry whose widths sum to 80. -/
def sample_wide : sbi_ptw_mode :=
  { load_pte := sbi_load_pte_pa, addr_signed := false, parts := parts_init [40, 40, 0] }

/-- The shift instructions of RV64: the amount is taken modulo 64. -/
def rv64_shifts : ShiftUnit :=
  { shr_u := fun a s => a >>> (s % 64).toNat
    shr_i := fun a s => a >>> (s % 64).toNat
    shl_one := fun s => 2 ^ (s % 64) }

/-! ## Canonical addresses -/

/-- A 64-bit value is below `2 ^ W` exactly when its bits from `W` to 63 are zero. -/
theorem lt_two_pow_iff_high_bits_zero (a W : Nat) (ha : a < 2 ^ 64) :
    a < 2 ^ W ↔ ∀ i, W ≤ i → i < 64 → a.testBit i = false := by
  constructor
  · intro h i hi _
    exact Nat.testBit_lt_two_pow (lt_of_lt_of_le h (Nat.pow_le_pow_right (by norm_num) hi))
  · intro h
    apply Nat.lt_pow_two_of_testBit
    intro i hi
    by_cases h64 : i < 64
    · exact h i hi h64
    · exact Nat.testBit_lt_two_pow
        (lt_of_lt_of_le ha (Nat.pow_le_pow_right (by norm_num) (by omega)))

/-- The unsigned shift is defined for amounts up to 63 and divides by `2 ^ W`. -/
theorem shr_u64_of_lt (a W : Nat) (hW : W ≤ 63) :
    shr_u64 a (W : Int) = some (a / 2 ^ W) := by
  have h : (0 : Int) ≤ (W : Int) ∧ (W : Int) < 64 := by omega
  simp [shr_u64, h, Nat.shiftRight_eq_div_pow]

/-- C1: for an unsigned geometry, a 64-bit address `a` and a width `W` from 0 to 63,
`addr_valid` returns true exactly when `a < 2 ^ W`, which is the same as all bits of
`a` from `W` up being zero; with width 39 the address `0x1000000000000` is rejected
and `0x1234` is accepted. -/
theorem addr_valid_unsigned (mode : sbi_ptw_mode) (a W : Nat)
    (hm : mode.addr_signed = false) (ha : a < 2 ^ 64) (hW : W ≤ 63) :
    (addr_valid a mode (W : Int) = some (decide (a < 2 ^ W))) ∧
    (a < 2 ^ W ↔ ∀ i, W ≤ i → i < 64 → a.testBit i = false) ∧
    addr_valid 0x1000000000000 mode 39 = some false ∧
    addr_valid 0x1234 mode 39 = some true := by
  refine ⟨?_, lt_two_pow_iff_high_bits_zero a W ha, ?_, ?_⟩
  · simp only [addr_valid, hm, shr_u64_of_lt a W hW]
    simp only [Bool.false_eq_true, if_false, Option.map_some', Option.some_inj]
    rw [Bool.eq_iff_iff]
    simp [Nat.div_eq_zero_iff (Nat.two_pow_pos W)]
  · have := shr_u64_of_lt 0x1000000000000 39 (by norm_num)
    simp only [Nat.cast_ofNat] at this
    simp [addr_valid, hm, this]
  · have := shr_u64_of_lt 0x1234 39 (by norm_num)
    simp only [Nat.cast_ofNat] at this
    simp [addr_valid, hm, this]


/-- Quotient of an integer by a positive divisor, as a pair of bounds. -/
theorem int_ediv_eq_iff (x q P : Int) (hP : 0 < P) :
    x / P = q ↔ q * P ≤ x ∧ x < (q + 1) * P := by
  rw [← Int.le_ediv_iff_mul_le hP, ← Int.ediv_lt_iff_lt_mul hP]
  omega

/-- The signed shift by `W - 1` is defined for `W` from 1 to 64 and is the floor division. -/
theorem shr_i64_of_lt (x : Int) (W : Nat) (h1 : 1 ≤ W) (h64 : W ≤ 64) :
    shr_i64 x ((W : Int) - 1) = some (x / 2 ^ (W - 1)) := by
  have h : (0 : Int) ≤ (W : Int) - 1 ∧ (W : Int) - 1 < 64 := by omega
  have e : ((W : Int) - 1).toNat = W - 1 := by omega
  simp [shr_i64, h, e, Int.shiftRight_eq_div_pow]

/-- The arithmetic content of the signed check. -/
theorem signed_check_iff (a W : Nat) (ha : a < 2 ^ 64) (h1 : 1 ≤ W) (h64 : W ≤ 64) :
    (to_int64 a / 2 ^ (W - 1) = 0 ∨ to_int64 a / 2 ^ (W - 1) = -1) ↔
      (a < 2 ^ (W - 1) ∨ 2 ^ 64 - 2 ^ (W - 1) ≤ a) := by
  have hP : (0 : Int) < 2 ^ (W - 1) := by positivity
  have hle : 2 ^ (W - 1) ≤ 2 ^ 63 := Nat.pow_le_pow_right (by norm_num) (by omega)
  have hcast : ((2 ^ (W - 1) : Nat) : Int) = (2 : Int) ^ (W - 1) := by push_cast; rfl
  rw [int_ediv_eq_iff _ _ _ hP, int_ediv_eq_iff _ _ _ hP]
  generalize hPd : (2 : Int) ^ (W - 1) = P at *
  generalize hQd : 2 ^ (W - 1) = Q at *
  unfold to_int64
  split <;> omega


/-- A 64-bit value is at least `2 ^ 64 - 2 ^ V` exactly when its bits from `V` to 63 are one. -/
theorem high_bits_one_iff (a V : Nat) (ha : a < 2 ^ 64) (hV : V ≤ 63) :
    2 ^ 64 - 2 ^ V ≤ a ↔ ∀ i, V ≤ i → i < 64 → a.testBit i = true := by
  have hle : 2 ^ V ≤ 2 ^ 63 := Nat.pow_le_pow_right (by norm_num) hV
  have hc : 2 ^ 64 - (a + 1) < 2 ^ 64 := by omega
  have key := lt_two_pow_iff_high_bits_zero (2 ^ 64 - (a + 1)) V hc
  have e : 2 ^ 64 - 2 ^ V ≤ a ↔ 2 ^ 64 - (a + 1) < 2 ^ V := by
    have hpos : 0 < 2 ^ V := Nat.two_pow_pos V
    generalize 2 ^ V = Q at *
    omega
  rw [e, key]
  constructor
  · intro h i hi h64
    have := h i hi h64
    rw [Nat.testBit_two_pow_sub_succ ha] at this
    simpa [h64] using this
  · intro h i hi h64
    rw [Nat.testBit_two_pow_sub_succ ha]
    simp [h i hi h64]

/-- Bit `W - 1` of a value below `2 ^ W` is set exactly when the value is at least `2 ^ (W - 1)`. -/
theorem sign_bit_iff (r W : Nat) (h1 : 1 ≤ W) (hr : r < 2 ^ W) :
    r.testBit (W - 1) = true ↔ 2 ^ (W - 1) ≤ r := by
  constructor
  · intro h
    exact Nat.testBit_implies_ge h
  · intro h
    by_contra hb
    have hb2 : r.testBit (W - 1) = false := by simpa using hb
    have : r < 2 ^ (W - 1) := by
      apply Nat.lt_pow_two_of_testBit
      intro i hi
      rcases Nat.eq_or_lt_of_le hi with e | l
      · rw [← e]; exact hb2
      · exact Nat.testBit_lt_two_pow
          (lt_of_lt_of_le hr (Nat.pow_le_pow_right (by norm_num) (by omega)))
    omega

/-- A 64-bit value is the sign-extension of its low `W` bits exactly when it lies in the
lowest or the highest `2 ^ (W - 1)` values. -/
theorem sign_extend_fixed_iff (a W : Nat) (ha : a < 2 ^ 64) (h1 : 1 ≤ W) (h64 : W ≤ 64) :
    a = sign_extend W a ↔ (a < 2 ^ (W - 1) ∨ 2 ^ 64 - 2 ^ (W - 1) ≤ a) := by
  have hW : 2 ^ W = 2 * 2 ^ (W - 1) := by
    conv_lhs => rw [show W = (W - 1) + 1 by omega]
    rw [pow_succ]; ring
  have hK : 2 ^ 64 = 2 ^ W * 2 ^ (64 - W) := by
    rw [← pow_add]; congr 1; omega
  have hr : a % 2 ^ W < 2 ^ W := Nat.mod_lt _ (Nat.two_pow_pos W)
  have hdm : 2 ^ W * (a / 2 ^ W) + a % 2 ^ W = a := Nat.div_add_mod a (2 ^ W)
  have hq : a / 2 ^ W < 2 ^ (64 - W) := by
    rw [Nat.div_lt_iff_lt_mul (Nat.two_pow_pos W)]
    rw [mul_comm, ← hK]; exact ha
  -- the multiple of `2 ^ W` below `a` is `2 ^ 64 - 2 ^ W` or at least `2 ^ W` smaller
  have hM : 2 ^ W * (a / 2 ^ W) + 2 ^ W = 2 ^ 64 ∨
      2 ^ W * (a / 2 ^ W) + 2 * 2 ^ W ≤ 2 ^ 64 := by
    rcases Nat.eq_or_lt_of_le (Nat.succ_le_of_lt hq) with e | l
    · left
      rw [hK, ← e, Nat.succ_eq_add_one]; ring
    · right
      have : 2 ^ W * (a / 2 ^ W + 2) ≤ 2 ^ W * 2 ^ (64 - W) :=
        Nat.mul_le_mul_left _ (by omega)
      rw [← hK] at this
      linarith
  have hM0 : 2 ^ W * (a / 2 ^ W) = 0 ∨ 2 ^ W ≤ 2 ^ W * (a / 2 ^ W) := by
    rcases Nat.eq_zero_or_pos (a / 2 ^ W) with e | l
    · left; rw [e]; rfl
    · right; exact Nat.le_mul_of_pos_right _ l
  have hbit := sign_bit_iff (a % 2 ^ W) W h1 hr
  have hpos : 0 < 2 ^ (W - 1) := Nat.two_pow_pos _
  unfold sign_extend
  generalize 2 ^ W * (a / 2 ^ W) = M at *
  generalize a % 2 ^ W = r at *
  generalize 2 ^ (W - 1) = P at *
  generalize 2 ^ W = T at *
  by_cases hb : r.testBit (W - 1) = true
  · rw [if_pos hb]
    have := hbit.mp hb
    omega
  · rw [if_neg hb]
    have : ¬ P ≤ r := fun h => hb (hbit.mpr h)
    omega


/-- C2: for a signed geometry, a 64-bit address `a` and a width `W` from 1 to 64,
`addr_valid` returns true exactly when bits `W - 1` to 63 of `a` are all zero or all
one, and exactly when `a` is the 64-bit sign-extension of its low `W` bits. -/
theorem addr_valid_signed (mode : sbi_ptw_mode) (a W : Nat)
    (hm : mode.addr_signed = true) (ha : a < 2 ^ 64) (h1 : 1 ≤ W) (h64 : W ≤ 64) :
    ∃ b, addr_valid a mode (W : Int) = some b ∧
      (b = true ↔ ((∀ i, W - 1 ≤ i → i < 64 → a.testBit i = false) ∨
                   (∀ i, W - 1 ≤ i → i < 64 → a.testBit i = true))) ∧
      (b = true ↔ a = sign_extend W a) := by
  have hnum : ((to_int64 a / 2 ^ (W - 1) == 0 || to_int64 a / 2 ^ (W - 1) == -1) = true) ↔
      (a < 2 ^ (W - 1) ∨ 2 ^ 64 - 2 ^ (W - 1) ≤ a) := by
    rw [← signed_check_iff a W ha h1 h64]
    simp
  refine ⟨(to_int64 a / 2 ^ (W - 1) == 0 || to_int64 a / 2 ^ (W - 1) == -1), ?_, ?_, ?_⟩
  · simp only [addr_valid, hm, if_true, shr_i64_of_lt _ W h1 h64, Option.map_some']
  · rw [hnum, lt_two_pow_iff_high_bits_zero a (W - 1) ha,
      high_bits_one_iff a (W - 1) ha (by omega)]
  · rw [hnum, sign_extend_fixed_iff a W ha h1 h64]

/-- Instance of C1 at Sv39x4, address `0x1234`, width 41. -/
theorem addr_valid_unsigned_witness :
    sbi_ptw_sv39x4.addr_signed = false ∧ 0x1234 < 2 ^ 64 ∧ 41 ≤ 63 ∧
    (addr_valid 0x1234 sbi_ptw_sv39x4 ((41 : Nat) : Int) = some (decide (0x1234 < 2 ^ 41)) ∧
     (0x1234 < 2 ^ 41 ↔ ∀ i, 41 ≤ i → i < 64 → (0x1234 : Nat).testBit i = false) ∧
     addr_valid 0x1000000000000 sbi_ptw_sv39x4 39 = some false ∧
     addr_valid 0x1234 sbi_ptw_sv39x4 39 = some true) :=
  ⟨rfl, by norm_num, by norm_num,
    addr_valid_unsigned sbi_ptw_sv39x4 0x1234 41 rfl (by norm_num) (by norm_num)⟩

/-- Instance of C2 at Sv39, address `0xffffffc000000000`, width 39. -/
theorem addr_valid_signed_witness :
    sbi_ptw_sv39.addr_signed = true ∧ 0xffffffc000000000 < 2 ^ 64 ∧ 1 ≤ 39 ∧ 39 ≤ 64 ∧
    ∃ b, addr_valid 0xffffffc000000000 sbi_ptw_sv39 ((39 : Nat) : Int) = some b ∧
      (b = true ↔ ((∀ i, 39 - 1 ≤ i → i < 64 → (0xffffffc000000000 : Nat).testBit i = false) ∨
                   (∀ i, 39 - 1 ≤ i → i < 64 → (0xffffffc000000000 : Nat).testBit i = true))) ∧
      (b = true ↔ 0xffffffc000000000 = sign_extend 39 0xffffffc000000000) :=
  ⟨rfl, by norm_num, by norm_num, by norm_num,
    addr_valid_signed sbi_ptw_sv39 0xffffffc000000000 39 rfl (by norm_num) (by norm_num)
      (by norm_num)⟩

/-! ## The level-counting loop -/

/-- Reading a slot of the array yields its width. -/
theorem read_parts_eq_some (mode : sbi_ptw_mode) (i : Nat) (h : i < 8) :
    read_parts mode i = some (parts_at mode i) := by
  simp [parts_at, read_parts, h]

/-- Reading past the array yields no value. -/
theorem read_parts_eq_none (mode : sbi_ptw_mode) (i : Nat) (h : 8 ≤ i) :
    read_parts mode i = none := by
  simp [read_parts, Nat.not_lt.mpr h]

/-- What the level-counting loop has established when it ends. -/
theorem count_levels_spec (mode : sbi_ptw_mode) (fuel : Nat) :
    ∀ (k : Nat) (v : Int) (n : Nat) (w : Int),
      count_levels mode fuel k v = some (n, w) →
      k ≤ n ∧ n < 8 ∧ parts_at mode n = 0 ∧
      (∀ i, k ≤ i → i < n → parts_at mode i ≠ 0) ∧
      w = v + (width_sum mode k n : Int) := by
  induction fuel with
  | zero => intro k v n w h; simp [count_levels] at h
  | succ fuel ih =>
    intro k v n w h
    by_cases hk : k < 8
    · rw [count_levels, read_parts_eq_some mode k hk] at h
      dsimp only at h
      by_cases hp : parts_at mode k ≠ 0
      · rw [if_pos hp] at h
        obtain ⟨h1, h2, h3, h4, h5⟩ := ih (k + 1) _ n w h
        refine ⟨by omega, h2, h3, ?_, ?_⟩
        · intro i hi hin
          rcases Nat.eq_or_lt_of_le hi with e | l
          · rw [← e]; exact hp
          · exact h4 i l hin
        · rw [h5, width_sum, width_sum, Finset.sum_eq_sum_Ico_succ_bot (by omega : k < n)]
          push_cast
          ring
      · have hp0 : parts_at mode k = 0 := by simpa using hp
        rw [if_neg hp] at h
        simp only [Option.some.injEq, Prod.mk.injEq] at h
        obtain ⟨rfl, rfl⟩ := h
        refine ⟨le_refl _, hk, hp0, ?_, ?_⟩
        · intro i hi hin; omega
        · simp [width_sum]
    · rw [count_levels, read_parts_eq_none mode k (by omega)] at h
      simp at h

/-- The test `(pte & 1) != 1` of line 120 holds exactly when bit 0 is clear. -/
theorem and_one_ne_one_iff (pte : Nat) : pte &&& 1 ≠ 1 ↔ pte.testBit 0 = false := by
  rw [Nat.and_one_is_mod, Nat.testBit_zero]
  simp

/-- A defined canonicality check bounds the total width by 64. -/
theorem addr_valid_width_le (addr : Nat) (mode : sbi_ptw_mode) (w : Int) (b : Bool)
    (h : addr_valid addr mode w = some b) : w ≤ 64 := by
  unfold addr_valid at h
  by_contra hw
  cases hs : mode.addr_signed
  · have : ¬ (0 ≤ w ∧ w < 64) := by omega
    simp [hs, shr_u64, this] at h
  · have : ¬ (0 ≤ w - 1 ∧ w - 1 < 64) := by omega
    simp only [hs, if_true, shr_i64, if_neg this, Option.map_none'] at h
    exact Option.noConfusion h

/-- With at least one index level and a total width of at most 64, the top level is a
slot of the array, its width is between 1 and 63, and the running shift after it is
between 1 and 63. -/
theorem top_level_bounds (mode : sbi_ptw_mode) (n : Nat) (w : Int)
    (hc : count_levels mode 9 0 0 = some (n, w)) (hn : 2 ≤ n) (hw : w ≤ 64) :
    n - 1 < 8 ∧ 1 ≤ parts_at mode (n - 1) ∧ parts_at mode (n - 1) < 64 ∧
      1 ≤ w - (parts_at mode (n - 1) : Int) ∧ w - (parts_at mode (n - 1) : Int) < 64 := by
  obtain ⟨_, h8, _, hnz, hsum⟩ := count_levels_spec mode 9 0 0 n w hc
  have h0 : parts_at mode 0 ≠ 0 := hnz 0 (le_refl _) (by omega)
  have hl : parts_at mode (n - 1) ≠ 0 := hnz (n - 1) (Nat.zero_le _) (by omega)
  have hsplit : width_sum mode 0 n =
      parts_at mode 0 + width_sum mode 1 (n - 1) + parts_at mode (n - 1) := by
    unfold width_sum
    rw [Finset.sum_eq_sum_Ico_succ_bot (by omega : 0 < n)]
    conv_lhs => rw [show n = (n - 1) + 1 by omega]
    rw [Finset.sum_Ico_succ_top (by omega : 0 + 1 ≤ n - 1)]
    ring_nf
  rw [hsplit] at hsum
  push_cast at hsum
  omega

/-! ## The walker -/

/-- The three ways one pass through the level-loop body can end, when its shifts are
defined: the loader reported a fault, the entry is not valid, or the entry is valid. -/
theorem walk_level_eq (addr : Nat) (csr : sbi_ptw_csr) (mode : sbi_ptw_mode)
    (level : Nat) (shift : Int) (node : Nat) (s : State)
    (hl : level < 8) (hp : parts_at mode level < 64)
    (h0 : 0 ≤ shift - (parts_at mode level : Int))
    (h1 : shift - (parts_at mode level : Int) < 64) :
    walk_level addr csr mode level shift node s =
      if (mode.load_pte (entry_addr_of mode addr node level shift) csr s.trap s.hw).2.1.cause ≠ 0
      then
        Outcome.ret SBI_EINVAL
          { trap := (mode.load_pte (entry_addr_of mode addr node level shift) csr s.trap s.hw).2.1
            out := s.out
            hw := (mode.load_pte (entry_addr_of mode addr node level shift) csr s.trap s.hw).2.2
            trace := s.trace ++
              [Event.printf_load_pte (entry_addr_of mode addr node level shift),
               Event.call_load_pte (entry_addr_of mode addr node level shift),
               Event.printf_load_failed
                 (mode.load_pte (entry_addr_of mode addr node level shift) csr s.trap s.hw).2.1.cause] }
      else if (mode.load_pte (entry_addr_of mode addr node level shift) csr s.trap s.hw).1.testBit 0
          = false then
        Outcome.ret SBI_EINVAL
          { trap := load_page_fault
            out := s.out
            hw := (mode.load_pte (entry_addr_of mode addr node level shift) csr s.trap s.hw).2.2
            trace := s.trace ++
              [Event.printf_load_pte (entry_addr_of mode addr node level shift),
               Event.call_load_pte (entry_addr_of mode addr node level shift),
               Event.printf_pte_is
                 (mode.load_pte (entry_addr_of mode addr node level shift) csr s.trap s.hw).1,
               Event.printf_pte_not_valid] }
      else
        Outcome.panic PanicMsg.todo
          { trap := (mode.load_pte (entry_addr_of mode addr node level shift) csr s.trap s.hw).2.1
            out := s.out
            hw := (mode.load_pte (entry_addr_of mode addr node level shift) csr s.trap s.hw).2.2
            trace := s.trace ++
              [Event.printf_load_pte (entry_addr_of mode addr node level shift),
               Event.call_load_pte (entry_addr_of mode addr node level shift),
               Event.printf_pte_is
                 (mode.load_pte (entry_addr_of mode addr node level shift) csr s.trap s.hw).1] } := by
  have hsh : shr_u64 addr (shift - (parts_at mode level : Int)) =
      some (addr >>> (shift - (parts_at mode level : Int)).toNat) := by
    simp [shr_u64, h0, h1]
  have hone : shl_one_u64 (parts_at mode level) = some (2 ^ parts_at mode level) := by
    simp [shl_one_u64, hp]
  unfold walk_level
  rw [read_parts_eq_some mode level hl]
  simp only [hone, hsh, State.log, sizeof_sbi_pte_t, entry_addr_of, List.append_assoc,
    List.singleton_append, and_one_ne_one_iff]
  split_ifs <;> rfl

/-- The loader calls of a concatenated trace. -/
theorem loader_calls_append (t u : List Event) :
    loader_calls (t ++ u) = loader_calls t ++ loader_calls u := by
  induction t with
  | nil => rfl
  | cons e t ih => cases e <;> simp [loader_calls, ih]

/-- A walk of a canonical address under a geometry with at least one index level is
one pass through the level-loop body at the top level, entered with the total width
as running shift and the root as table base. -/
theorem sbi_pt_walk_canonical (addr pt_root : Nat) (csr : sbi_ptw_csr) (mode : sbi_ptw_mode)
    (s : State) (n : Nat) (w : Int)
    (hc : count_levels mode 9 0 0 = some (n, w)) (hn : 2 ≤ n)
    (hv : addr_valid addr mode w = some true) :
    sbi_pt_walk addr pt_root csr mode s = walk_level addr csr mode (n - 1) w pt_root s := by
  unfold sbi_pt_walk
  rw [hc]
  simp only [hv, walk_levels]
  rw [if_pos (by omega)]

/-- C4: when the address fails `addr_valid` for the total width of the geometry,
`sbi_pt_walk` returns `SBI_EINVAL`, the FaultInfo holds the load page-fault cause 13
and zero `tinst`, `tval` and `tval2`, and nothing else has changed: the loader was
not called, the hart and the output buffer are untouched. -/
theorem sbi_pt_walk_invalid_addr (addr pt_root : Nat) (csr : sbi_ptw_csr)
    (mode : sbi_ptw_mode) (s : State) (n : Nat) (w : Int)
    (hc : count_levels mode 9 0 0 = some (n, w))
    (hv : addr_valid addr mode w = some false) :
    sbi_pt_walk addr pt_root csr mode s =
      Outcome.ret SBI_EINVAL
        { trap := { cause := 13, tinst := 0, tval := 0, tval2 := 0 }
          out := s.out, hw := s.hw, trace := s.trace } := by
  unfold sbi_pt_walk
  rw [hc]
  simp only [hv]
  rfl

/-- C5: for a geometry with at least one index level and a canonical address, when
the loader returns the first entry without fault and bit 0 of the entry is clear,
`sbi_pt_walk` returns `SBI_EINVAL` with cause 13 and zero `tinst`, `tval`, `tval2`,
and the loader has been called exactly once, for that first entry. -/
theorem sbi_pt_walk_entry_not_valid (addr pt_root : Nat) (csr : sbi_ptw_csr)
    (mode : sbi_ptw_mode) (s : State) (n : Nat) (w : Int)
    (ea : Nat) (r : Nat × sbi_trap_info × Machine)
    (hc : count_levels mode 9 0 0 = some (n, w)) (hn : 2 ≤ n)
    (hv : addr_valid addr mode w = some true)
    (hea : ea = entry_addr_of mode addr pt_root (n - 1) w)
    (hr : r = mode.load_pte ea csr s.trap s.hw)
    (hok : r.2.1.cause = 0) (hbit : r.1.testBit 0 = false) :
    sbi_pt_walk addr pt_root csr mode s =
      Outcome.ret SBI_EINVAL
        { trap := { cause := 13, tinst := 0, tval := 0, tval2 := 0 }
          out := s.out, hw := r.2.2
          trace := s.trace ++ [Event.printf_load_pte ea, Event.call_load_pte ea,
            Event.printf_pte_is r.1, Event.printf_pte_not_valid] } ∧
    loader_calls (s.trace ++ [Event.printf_load_pte ea, Event.call_load_pte ea,
        Event.printf_pte_is r.1, Event.printf_pte_not_valid]) = loader_calls s.trace ++ [ea] := by
  obtain ⟨h8, _, hp, hs0, hs1⟩ :=
    top_level_bounds mode n w hc hn (addr_valid_width_le addr mode w true hv)
  refine ⟨?_, ?_⟩
  · rw [sbi_pt_walk_canonical addr pt_root csr mode s n w hc hn hv,
      walk_level_eq addr csr mode (n - 1) w pt_root s h8 hp (by omega) hs1]
    subst hea
    subst hr
    rw [if_neg (by simpa using hok), if_pos hbit]
    rfl
  · rw [loader_calls_append]; rfl

/-- C6: for a geometry with at least one index level and a canonical address, when
the loader leaves a nonzero cause in the FaultInfo, `sbi_pt_walk` returns `SBI_EINVAL`
at once: the FaultInfo and the hart are exactly as the loader left them whatever the
entry value returned, and the loader has been called exactly once. -/
theorem sbi_pt_walk_loader_fault (addr pt_root : Nat) (csr : sbi_ptw_csr)
    (mode : sbi_ptw_mode) (s : State) (n : Nat) (w : Int)
    (ea : Nat) (r : Nat × sbi_trap_info × Machine)
    (hc : count_levels mode 9 0 0 = some (n, w)) (hn : 2 ≤ n)
    (hv : addr_valid addr mode w = some true)
    (hea : ea = entry_addr_of mode addr pt_root (n - 1) w)
    (hr : r = mode.load_pte ea csr s.trap s.hw)
    (hfault : r.2.1.cause ≠ 0) :
    sbi_pt_walk addr pt_root csr mode s =
      Outcome.ret SBI_EINVAL
        { trap := r.2.1, out := s.out, hw := r.2.2
          trace := s.trace ++ [Event.printf_load_pte ea, Event.call_load_pte ea,
            Event.printf_load_failed r.2.1.cause] } ∧
    loader_calls (s.trace ++ [Event.printf_load_pte ea, Event.call_load_pte ea,
        Event.printf_load_failed r.2.1.cause]) = loader_calls s.trace ++ [ea] := by
  obtain ⟨h8, _, hp, hs0, hs1⟩ :=
    top_level_bounds mode n w hc hn (addr_valid_width_le addr mode w true hv)
  refine ⟨?_, ?_⟩
  · rw [sbi_pt_walk_canonical addr pt_root csr mode s n w hc hn hv,
      walk_level_eq addr csr mode (n - 1) w pt_root s h8 hp (by omega) hs1]
    subst hea
    subst hr
    rw [if_pos hfault]
  · rw [loader_calls_append]; rfl

/-- Instance of C4: Sv39x4 and the address `2 ^ 41`. -/
theorem sbi_pt_walk_invalid_addr_witness :
    count_levels sbi_ptw_sv39x4 9 0 0 = some (4, 41) ∧
    addr_valid (2 ^ 41) sbi_ptw_sv39x4 41 = some false ∧
    sbi_pt_walk (2 ^ 41) 0x80000000 sample_csr sbi_ptw_sv39x4 sample_state =
      Outcome.ret SBI_EINVAL
        { trap := { cause := 13, tinst := 0, tval := 0, tval2 := 0 }
          out := sample_state.out, hw := sample_state.hw, trace := sample_state.trace } :=
  ⟨by decide, by decide,
    sbi_pt_walk_invalid_addr (2 ^ 41) 0x80000000 sample_csr sbi_ptw_sv39x4 sample_state 4 41
      (by decide) (by decide)⟩

/-- Instance of C5: Sv39x4, root `0x80000000`, address `0x80000000` (index 2). -/
theorem sbi_pt_walk_entry_not_valid_witness :
    count_levels sbi_ptw_sv39x4 9 0 0 = some (4, 41) ∧ 2 ≤ 4 ∧
    addr_valid 0x80000000 sbi_ptw_sv39x4 41 = some true ∧
    0x80000010 = entry_addr_of sbi_ptw_sv39x4 0x80000000 0x80000000 (4 - 1) 41 ∧
    (sbi_ptw_sv39x4.load_pte 0x80000010 sample_csr sample_state.trap sample_state.hw).2.1.cause = 0 ∧
    (sbi_ptw_sv39x4.load_pte 0x80000010 sample_csr sample_state.trap sample_state.hw).1.testBit 0
      = false ∧
    sbi_pt_walk 0x80000000 0x80000000 sample_csr sbi_ptw_sv39x4 sample_state =
      Outcome.ret SBI_EINVAL
        { trap := { cause := 13, tinst := 0, tval := 0, tval2 := 0 }
          out := sample_state.out
          hw := (sbi_ptw_sv39x4.load_pte 0x80000010 sample_csr sample_state.trap
            sample_state.hw).2.2
          trace := sample_state.trace ++
            [Event.printf_load_pte 0x80000010, Event.call_load_pte 0x80000010,
             Event.printf_pte_is 0x20, Event.printf_pte_not_valid] } :=
  ⟨by decide, by decide, by decide, by decide, by decide, by decide,
    (sbi_pt_walk_entry_not_valid 0x80000000 0x80000000 sample_csr sbi_ptw_sv39x4 sample_state
      4 41 0x80000010 _ (by decide) (by decide) (by decide) (by decide) rfl (by decide)
      (by decide)).1⟩

/-- Instance of C6: Sv39x4, root `0x80000000`, address `0xC0000000` (index 3). -/
theorem sbi_pt_walk_loader_fault_witness :
    count_levels sbi_ptw_sv39x4 9 0 0 = some (4, 41) ∧ 2 ≤ 4 ∧
    addr_valid 0xC0000000 sbi_ptw_sv39x4 41 = some true ∧
    0x80000018 = entry_addr_of sbi_ptw_sv39x4 0xC0000000 0x80000000 (4 - 1) 41 ∧
    (sbi_ptw_sv39x4.load_pte 0x80000018 sample_csr sample_state.trap sample_state.hw).2.1.cause
      ≠ 0 ∧
    sbi_pt_walk 0xC0000000 0x80000000 sample_csr sbi_ptw_sv39x4 sample_state =
      Outcome.ret SBI_EINVAL
        { trap := { cause := 5, tinst := 0, tval := 0, tval2 := 0 }
          out := sample_state.out
          hw := (sbi_ptw_sv39x4.load_pte 0x80000018 sample_csr sample_state.trap
            sample_state.hw).2.2
          trace := sample_state.trace ++
            [Event.printf_load_pte 0x80000018, Event.call_load_pte 0x80000018,
             Event.printf_load_failed 5] } :=
  ⟨by decide, by decide, by decide, by decide, by decide,
    (sbi_pt_walk_loader_fault 0xC0000000 0x80000000 sample_csr sbi_ptw_sv39x4 sample_state
      4 41 0x80000018 _ (by decide) (by decide) (by decide) (by decide) rfl (by decide)).1⟩

/-! ## The entry point, and entries with the valid bit set -/

/-- C3: `convert_pf_to_gpf` maps 13 to 21, 15 to 23 and 12 to 20, and returns 0 and
every other cause `c` unchanged; and when `sbi_ptw_translate` returns, the walker has
returned the same code and the cause in the FaultInfo is `convert_pf_to_gpf` of the
cause the walker left there. -/
theorem sbi_ptw_translate_converts_cause (gva : Nat) (csr : sbi_ptw_csr) (s : State)
    (code : Int) (s2 : State) (c : Nat)
    (hc : c ≠ 13 ∧ c ≠ 15 ∧ c ≠ 12)
    (h : sbi_ptw_translate gva csr s = Outcome.ret code s2) :
    convert_pf_to_gpf 13 = 21 ∧ convert_pf_to_gpf 15 = 23 ∧ convert_pf_to_gpf 12 = 20 ∧
    convert_pf_to_gpf 0 = 0 ∧ convert_pf_to_gpf c = c ∧
    ∃ s1, sbi_pt_walk gva (pt_root_of csr.hgatp) csr sbi_ptw_sv39x4 s = Outcome.ret code s1 ∧
      s2.trap.cause = convert_pf_to_gpf s1.trap.cause := by
  refine ⟨rfl, rfl, rfl, rfl, ?_, ?_⟩
  · obtain ⟨h13, h15, h12⟩ := hc
    simp [convert_pf_to_gpf, CAUSE_LOAD_PAGE_FAULT, CAUSE_STORE_PAGE_FAULT,
      CAUSE_FETCH_PAGE_FAULT, h13, h15, h12]
  · unfold sbi_ptw_translate at h
    split_ifs at h
    split at h
    · rename_i code1 s1 hw
      simp only [Outcome.ret.injEq] at h
      obtain ⟨hcode, hs⟩ := h
      refine ⟨s1, ?_, ?_⟩
      · rw [hw, hcode]
      · rw [← hs]; rfl
    · exact Outcome.noConfusion h
    · exact Outcome.noConfusion h

/-- Instance of C3: the cause 5, and the translation of `0x80000000` in the sample
context, where the root entry has its valid bit clear. -/
theorem sbi_ptw_translate_converts_cause_witness :
    ((5 : Nat) ≠ 13 ∧ (5 : Nat) ≠ 15 ∧ (5 : Nat) ≠ 12) ∧
    sbi_ptw_translate 0x80000000 sample_csr sample_state =
      Outcome.ret SBI_EINVAL
        { trap := { cause := 21, tinst := 0, tval := 0, tval2 := 0 }
          out := sample_state.out
          hw := (sbi_load_pte_pa 0x80000010 sample_csr sample_state.trap sample_state.hw).2.2
          trace := [Event.printf_load_pte 0x80000010, Event.call_load_pte 0x80000010,
             Event.printf_pte_is 0x20, Event.printf_pte_not_valid] } ∧
    convert_pf_to_gpf 5 = 5 ∧
    ∃ s1, sbi_pt_walk 0x80000000 (pt_root_of sample_csr.hgatp) sample_csr sbi_ptw_sv39x4
        sample_state = Outcome.ret SBI_EINVAL s1 ∧
      21 = convert_pf_to_gpf s1.trap.cause :=
  ⟨by decide, rfl,
    (sbi_ptw_translate_converts_cause 0x80000000 sample_csr sample_state SBI_EINVAL _ 5
      (by decide) rfl).2.2.2.2⟩

/-- C7: when the stage-1 mode field `vsatp >> 60` is not 0, or it is 0 and the stage-2
mode field `hgatp >> 60` is not 8, every call of `sbi_ptw_translate` with that context
ends in `sbi_panic` with a message fixed by `vsatp` and `hgatp` alone (stage-1 first),
in the state it was entered with: no entry loaded, FaultInfo and output unwritten. -/
theorem sbi_ptw_translate_unsupported (csr : sbi_ptw_csr)
    (h : csr.vsatp >>> 60 ≠ 0 ∨ (csr.vsatp >>> 60 = 0 ∧ csr.hgatp >>> 60 ≠ 8)) :
    ∃ msg : PanicMsg,
      msg = (if csr.vsatp >>> 60 ≠ 0 then PanicMsg.not_bare else PanicMsg.not_sv39x4) ∧
      ∀ (gva : Nat) (s : State), sbi_ptw_translate gva csr s = Outcome.panic msg s := by
  refine ⟨_, rfl, ?_⟩
  intro gva s
  unfold sbi_ptw_translate
  simp only [SATP_MODE_SHIFT, SATP_MODE_OFF, HGATP_MODE_SHIFT, HGATP_MODE_SV39X4]
  rcases h with h | ⟨h1, h2⟩
  · rw [if_pos h, if_pos h]
  · rw [if_neg (by simpa using h1), if_pos h2, if_neg (by simpa using h1)]

/-- Instance of C7: stage-1 bare and the stage-2 mode field 9. -/
theorem sbi_ptw_translate_unsupported_witness :
    ((0 : Nat) >>> 60 ≠ 0 ∨ ((0 : Nat) >>> 60 = 0 ∧ (9 * 2 ^ 60 + 0x80000) >>> 60 ≠ 8)) ∧
    ∃ msg : PanicMsg,
      msg = (if (0 : Nat) >>> 60 ≠ 0 then PanicMsg.not_bare else PanicMsg.not_sv39x4) ∧
      ∀ (gva : Nat) (s : State),
        sbi_ptw_translate gva { vsatp := 0, hgatp := 9 * 2 ^ 60 + 0x80000 } s =
          Outcome.panic msg s :=
  ⟨by decide,
    sbi_ptw_translate_unsupported { vsatp := 0, hgatp := 9 * 2 ^ 60 + 0x80000 } (by decide)⟩

/-- C8, as stated, fails: with a single index level, the address `0x1234` and a root
entry `0x200000cf` (valid and leaf bits set, page number `0x80000`) loaded without
fault, `sbi_pt_walk` does not return success with output address
`(0x80000 << 12) | (0x1234 & 0xfff)`; it does not return at all. -/
theorem sbi_pt_walk_single_level_leaf_counterexample :
    count_levels sample_one_level 9 0 0 = some (2, 21) ∧
    addr_valid 0x1234 sample_one_level 21 = some true ∧
    sbi_load_pte_pa (entry_addr_of sample_one_level 0x1234 0x80000000 1 21) sample_csr
        sample_state.trap sample_state.hw =
      (0x200000cf, { cause := 0, tinst := 1, tval := 2, tval2 := 3 },
        (sbi_load_pte_pa 0x80000008 sample_csr sample_state.trap sample_state.hw).2.2) ∧
    ¬ ∃ (code : Int) (s1 : State),
        sbi_pt_walk 0x1234 0x80000000 sample_csr sample_one_level sample_state =
          Outcome.ret code s1 ∧
        code = 0 ∧ s1.out.addr = (0x80000 <<< 12) ||| (0x1234 &&& 0xfff) := by
  refine ⟨by decide, by decide, rfl, ?_⟩
  rintro ⟨code, s1, h, _, _⟩
  have e : sbi_pt_walk 0x1234 0x80000000 sample_csr sample_one_level sample_state =
      Outcome.panic PanicMsg.todo
        { trap := { cause := 0, tinst := 1, tval := 2, tval2 := 3 }
          out := sample_state.out
          hw := (sbi_load_pte_pa 0x80000008 sample_csr sample_state.trap sample_state.hw).2.2
          trace := [Event.printf_load_pte 0x80000008, Event.call_load_pte 0x80000008,
            Event.printf_pte_is 0x200000cf] } := rfl
  rw [e] at h
  exact Outcome.noConfusion h

/-- C8, amended: for a geometry with a single index level and a canonical address,
when the loader returns the root entry without fault and bit 0 of the entry is set
(whatever its other bits), `sbi_pt_walk` ends in `sbi_panic("todo")` after that one
loader call, with the FaultInfo and the hart as the loader left them and the output
buffer unwritten. -/
theorem sbi_pt_walk_single_level_valid (addr pt_root : Nat) (csr : sbi_ptw_csr)
    (mode : sbi_ptw_mode) (s : State) (w : Int)
    (ea : Nat) (r : Nat × sbi_trap_info × Machine)
    (hc : count_levels mode 9 0 0 = some (2, w))
    (hv : addr_valid addr mode w = some true)
    (hea : ea = entry_addr_of mode addr pt_root 1 w)
    (hr : r = mode.load_pte ea csr s.trap s.hw)
    (hok : r.2.1.cause = 0) (hbit : r.1.testBit 0 = true) :
    sbi_pt_walk addr pt_root csr mode s =
      Outcome.panic PanicMsg.todo
        { trap := r.2.1, out := s.out, hw := r.2.2
          trace := s.trace ++ [Event.printf_load_pte ea, Event.call_load_pte ea,
            Event.printf_pte_is r.1] } ∧
    loader_calls (s.trace ++ [Event.printf_load_pte ea, Event.call_load_pte ea,
        Event.printf_pte_is r.1]) = loader_calls s.trace ++ [ea] := by
  obtain ⟨h8, _, hp, hs0, hs1⟩ :=
    top_level_bounds mode 2 w hc (le_refl 2) (addr_valid_width_le addr mode w true hv)
  refine ⟨?_, ?_⟩
  · rw [sbi_pt_walk_canonical addr pt_root csr mode s 2 w hc (le_refl 2) hv,
      walk_level_eq addr csr mode (2 - 1) w pt_root s h8 hp (by omega) hs1]
    subst hea
    subst hr
    rw [if_neg (by simpa using hok), if_neg (by simpa using hbit)]
  · rw [loader_calls_append]; rfl

/-- Instance of the amended C8: the single-level sample geometry, root `0x80000000`,
address `0x1234` (index 1), whose entry `0x200000cf` is a valid leaf. -/
theorem sbi_pt_walk_single_level_valid_witness :
    count_levels sample_one_level 9 0 0 = some (2, 21) ∧
    addr_valid 0x1234 sample_one_level 21 = some true ∧
    0x80000008 = entry_addr_of sample_one_level 0x1234 0x80000000 1 21 ∧
    (sample_one_level.load_pte 0x80000008 sample_csr sample_state.trap
      sample_state.hw).2.1.cause = 0 ∧
    (sample_one_level.load_pte 0x80000008 sample_csr sample_state.trap
      sample_state.hw).1.testBit 0 = true ∧
    sbi_pt_walk 0x1234 0x80000000 sample_csr sample_one_level sample_state =
      Outcome.panic PanicMsg.todo
        { trap := { cause := 0, tinst := 1, tval := 2, tval2 := 3 }
          out := sample_state.out
          hw := (sample_one_level.load_pte 0x80000008 sample_csr sample_state.trap
            sample_state.hw).2.2
          trace := sample_state.trace ++
            [Event.printf_load_pte 0x80000008, Event.call_load_pte 0x80000008,
             Event.printf_pte_is 0x200000cf] } :=
  ⟨by decide, by decide, by decide, by decide, by decide,
    (sbi_pt_walk_single_level_valid 0x1234 0x80000000 sample_csr sample_one_level sample_state
      21 0x80000008 _ (by decide) (by decide) (by decide) rfl (by decide) (by decide)).1⟩

/-! ## The physical entry loader and the root table -/

/-- C9: for every entry address, after `sbi_load_pte_pa` the `mtvec` register holds
the value it held before the call, on the faulting path as on the other; exactly one
load has been issued, of the entry, while `mtvec` held the expected-trap address; and
when the load does not fault the loaded entry is returned with cause 0 (when it does,
the FaultInfo is what the landing path of the hart wrote). -/
theorem sbi_load_pte_pa_restores_mtvec (addr : Nat) (csr : sbi_ptw_csr)
    (trap : sbi_trap_info) (m : Machine) :
    (sbi_load_pte_pa addr csr trap m).2.2.mtvec = m.mtvec ∧
    (sbi_load_pte_pa addr csr trap m).2.2.bus =
      m.bus ++ [{ addr := addr, mtvec_at_load := m.expected_trap_addr }] ∧
    (match m.mem addr with
     | LoadResult.value v =>
        (sbi_load_pte_pa addr csr trap m).1 = v ∧
        (sbi_load_pte_pa addr csr trap m).2.1 = { trap with cause := 0 }
     | LoadResult.fault c =>
        (sbi_load_pte_pa addr csr trap m).2.1 = m.landing c { trap with cause := 0 }) := by
  refine ⟨rfl, rfl, ?_⟩
  cases hm : m.mem addr with
  | value v => simp [sbi_load_pte_pa, hm]
  | fault c => simp [sbi_load_pte_pa, hm]

/-- The root-table address in arithmetic form. -/
theorem pt_root_of_eq (hgatp : Nat) : pt_root_of hgatp = hgatp % 2 ^ 44 * 4096 := by
  have h : hgatp % 2 ^ 44 < 2 ^ 44 := Nat.mod_lt _ (by norm_num)
  unfold pt_root_of HGATP_PPN PAGE_SHIFT
  rw [Nat.and_pow_two_sub_one_eq_mod, Nat.shiftLeft_eq]
  apply Nat.mod_eq_of_lt
  omega

/-- C10: when the configuration checks pass, `sbi_ptw_translate` is the walk of the
Sv39x4 geometry from the root `(hgatp mod 2 ^ 44) * 4096`, followed by the cause remap;
this root is `(hgatp & HGATP_PPN) << PAGE_SHIFT`, is a multiple of 4096, is below
`2 ^ 56`, and is the same for any `hgatp` with the same low 44 bits. -/
theorem sbi_ptw_translate_root (gva : Nat) (csr : sbi_ptw_csr) (s : State) (hgatp2 : Nat)
    (h1 : csr.vsatp >>> 60 = 0) (h2 : csr.hgatp >>> 60 = 8)
    (hsame : hgatp2 % 2 ^ 44 = csr.hgatp % 2 ^ 44) :
    sbi_ptw_translate gva csr s =
      (match sbi_pt_walk gva (csr.hgatp % 2 ^ 44 * 4096) csr sbi_ptw_sv39x4 s with
       | Outcome.ret code s1 =>
          Outcome.ret code
            { s1 with trap := { s1.trap with cause := convert_pf_to_gpf s1.trap.cause } }
       | Outcome.panic msg s1 => Outcome.panic msg s1
       | Outcome.undefined => Outcome.undefined) ∧
    pt_root_of csr.hgatp = csr.hgatp % 2 ^ 44 * 4096 ∧
    pt_root_of csr.hgatp % 4096 = 0 ∧
    pt_root_of csr.hgatp < 2 ^ 56 ∧
    pt_root_of hgatp2 = pt_root_of csr.hgatp := by
  have h : csr.hgatp % 2 ^ 44 < 2 ^ 44 := Nat.mod_lt _ (by norm_num)
  refine ⟨?_, pt_root_of_eq _, ?_, ?_, ?_⟩
  · unfold sbi_ptw_translate
    simp only [SATP_MODE_SHIFT, SATP_MODE_OFF, HGATP_MODE_SHIFT, HGATP_MODE_SV39X4]
    rw [if_neg (by simpa using h1), if_neg (by simpa using h2), pt_root_of_eq]
    rfl
  · rw [pt_root_of_eq]; omega
  · rw [pt_root_of_eq]; omega
  · rw [pt_root_of_eq, pt_root_of_eq, hsame]

/-- Instance of C10: the sample context, and an `hgatp` with another mode field and
VMID but the same low 44 bits. -/
theorem sbi_ptw_translate_root_witness :
    sample_csr.vsatp >>> 60 = 0 ∧ sample_csr.hgatp >>> 60 = 8 ∧
    (3 * 2 ^ 60 + 0x155 * 2 ^ 44 + 0x80000) % 2 ^ 44 = sample_csr.hgatp % 2 ^ 44 ∧
    pt_root_of sample_csr.hgatp = 0x80000000 ∧
    pt_root_of (3 * 2 ^ 60 + 0x155 * 2 ^ 44 + 0x80000) = pt_root_of sample_csr.hgatp :=
  ⟨by decide, by decide, by decide, by decide,
    (sbi_ptw_translate_root 0x1234 sample_csr sample_state (3 * 2 ^ 60 + 0x155 * 2 ^ 44 + 0x80000)
      (by decide) (by decide) (by decide)).2.2.2.2⟩

/-! ## General form of a walk -/

/-- With defined shifts, one pass through the level-loop body is `level_result` at the
entry address of the level. -/
theorem walk_level_eq_result (addr : Nat) (csr : sbi_ptw_csr) (mode : sbi_ptw_mode)
    (level : Nat) (shift : Int) (node : Nat) (s : State)
    (hl : level < 8) (hp : parts_at mode level < 64)
    (h0 : 0 ≤ shift - (parts_at mode level : Int))
    (h1 : shift - (parts_at mode level : Int) < 64) :
    walk_level addr csr mode level shift node s =
      level_result mode csr s (entry_addr_of mode addr node level shift) := by
  rw [walk_level_eq addr csr mode level shift node s hl hp h0 h1]
  rfl

/-- One pass through the level-loop body either executes an undefined operation before
it calls the loader, or is `level_result` at some entry address. -/
theorem walk_level_cases (addr : Nat) (csr : sbi_ptw_csr) (mode : sbi_ptw_mode)
    (level : Nat) (shift : Int) (node : Nat) (s : State) :
    walk_level addr csr mode level shift node s = Outcome.undefined ∨
    ∃ ea, walk_level addr csr mode level shift node s = level_result mode csr s ea := by
  by_cases hl : level < 8
  · by_cases hp : parts_at mode level < 64
    · by_cases h : 0 ≤ shift - (parts_at mode level : Int) ∧
          shift - (parts_at mode level : Int) < 64
      · exact Or.inr ⟨_, walk_level_eq_result addr csr mode level shift node s hl hp h.1 h.2⟩
      · left
        have hone : shl_one_u64 (parts_at mode level) = some (2 ^ parts_at mode level) := by
          simp [shl_one_u64, hp]
        have hs : shr_u64 addr (shift - (parts_at mode level : Int)) = none := by
          unfold shr_u64
          rw [if_neg h]
        unfold walk_level
        rw [read_parts_eq_some mode level hl]
        simp only [hone, hs]
    · left
      have hone : shl_one_u64 (parts_at mode level) = none := by
        unfold shl_one_u64
        rw [if_neg hp]
      unfold walk_level
      rw [read_parts_eq_some mode level hl]
      simp only [hone]
  · left
    unfold walk_level
    rw [read_parts_eq_none mode level (by omega)]

/-- The four ways a walk can end: an undefined operation, the rejection of the
address, `sbi_panic("dunno")` with nothing changed, or one pass through the level-loop
body. -/
theorem sbi_pt_walk_cases (addr pt_root : Nat) (csr : sbi_ptw_csr) (mode : sbi_ptw_mode)
    (s : State) :
    sbi_pt_walk addr pt_root csr mode s = Outcome.undefined ∨
    sbi_pt_walk addr pt_root csr mode s =
      Outcome.ret SBI_EINVAL
        { trap := load_page_fault, out := s.out, hw := s.hw, trace := s.trace } ∨
    sbi_pt_walk addr pt_root csr mode s = Outcome.panic PanicMsg.dunno s ∨
    ∃ ea, sbi_pt_walk addr pt_root csr mode s = level_result mode csr s ea := by
  unfold sbi_pt_walk
  cases hc : count_levels mode 9 0 0 with
  | none => left; rfl
  | some nw =>
    obtain ⟨n, w⟩ := nw
    cases hv : addr_valid addr mode w with
    | none => left; simp only [hv]
    | some b =>
      cases b with
      | false => right; left; simp only [hv]
      | true =>
        simp only [hv, walk_levels]
        by_cases h1 : 1 ≤ n - 1
        · rw [if_pos h1]
          rcases walk_level_cases addr csr mode (n - 1) w pt_root s with h | h
          · left; exact h
          · right; right; right; exact h
        · rw [if_neg h1]
          right; right; left; rfl

/-- A pass through the level-loop body that returns: the code is `SBI_EINVAL`, the cause
is nonzero, the output buffer is as before and the loader was called once. -/
theorem level_result_ret (mode : sbi_ptw_mode) (csr : sbi_ptw_csr) (s : State) (ea : Nat)
    (code : Int) (s1 : State) (h : level_result mode csr s ea = Outcome.ret code s1) :
    code = SBI_EINVAL ∧ s1.trap.cause ≠ 0 ∧ s1.out = s.out ∧
      loader_calls s1.trace = loader_calls s.trace ++ [ea] := by
  unfold level_result at h
  by_cases hcause : (mode.load_pte ea csr s.trap s.hw).2.1.cause ≠ 0
  · rw [if_pos hcause] at h
    simp only [Outcome.ret.injEq] at h
    obtain ⟨rfl, rfl⟩ := h
    refine ⟨rfl, hcause, rfl, ?_⟩
    simp only [loader_calls_append]; rfl
  · rw [if_neg hcause] at h
    by_cases hbit : (mode.load_pte ea csr s.trap s.hw).1.testBit 0 = false
    · rw [if_pos hbit] at h
      simp only [Outcome.ret.injEq] at h
      obtain ⟨rfl, rfl⟩ := h
      refine ⟨rfl, by simp [load_page_fault, CAUSE_LOAD_PAGE_FAULT], rfl, ?_⟩
      simp only [loader_calls_append]; rfl
    · rw [if_neg hbit] at h
      exact Outcome.noConfusion h

/-- A pass through the level-loop body that ends in `sbi_panic`: the message is "todo",
the output buffer is as before and the loader was called once. -/
theorem level_result_panic (mode : sbi_ptw_mode) (csr : sbi_ptw_csr) (s : State) (ea : Nat)
    (msg : PanicMsg) (s1 : State) (h : level_result mode csr s ea = Outcome.panic msg s1) :
    msg = PanicMsg.todo ∧ s1.trap.cause = 0 ∧ s1.out = s.out ∧
      loader_calls s1.trace = loader_calls s.trace ++ [ea] := by
  unfold level_result at h
  by_cases hcause : (mode.load_pte ea csr s.trap s.hw).2.1.cause ≠ 0
  · rw [if_pos hcause] at h
    exact Outcome.noConfusion h
  · rw [if_neg hcause] at h
    by_cases hbit : (mode.load_pte ea csr s.trap s.hw).1.testBit 0 = false
    · rw [if_pos hbit] at h
      exact Outcome.noConfusion h
    · rw [if_neg hbit] at h
      simp only [Outcome.panic.injEq] at h
      obtain ⟨rfl, rfl⟩ := h
      refine ⟨rfl, by simpa using hcause, rfl, ?_⟩
      simp only [loader_calls_append]; rfl

/-- A pass through the level-loop body whose shifts are defined has a defined end. -/
theorem level_result_defined (mode : sbi_ptw_mode) (csr : sbi_ptw_csr) (s : State) (ea : Nat) :
    level_result mode csr s ea ≠ Outcome.undefined := by
  unfold level_result
  split_ifs <;> exact fun h => Outcome.noConfusion h

/-- The level-counting loop of a geometry with its terminator in slot `n`, started at
slot `k` with enough fuel to reach slot `n`, ends at `n` and has added the widths of
the slots from `k` to `n - 1`. -/
theorem count_levels_of_terminator (mode : sbi_ptw_mode) (n : Nat)
    (ht : terminator_at mode n) (fuel : Nat) :
    ∀ (k : Nat) (v : Int), k ≤ n → n - k < fuel →
      count_levels mode fuel k v = some (n, v + (width_sum mode k n : Int)) := by
  obtain ⟨h8, hz, hnz⟩ := ht
  induction fuel with
  | zero => intro k v _ hf; omega
  | succ fuel ih =>
    intro k v hk hf
    rw [count_levels, read_parts_eq_some mode k (by omega)]
    dsimp only
    rcases Nat.eq_or_lt_of_le hk with e | l
    · subst e
      rw [if_neg (by simpa using hz)]
      simp [width_sum]
    · rw [if_pos (hnz k l), ih (k + 1) _ (by omega) (by omega)]
      rw [width_sum, width_sum, Finset.sum_eq_sum_Ico_succ_bot l]
      push_cast
      congr 2
      ring

/-! ## The Sv39x4 walk -/

/-- The unsigned check with a width of at most 63 is the comparison with `2 ^ W`. -/
theorem addr_valid_unsigned_eq (mode : sbi_ptw_mode) (a W : Nat)
    (hm : mode.addr_signed = false) (hW : W ≤ 63) :
    addr_valid a mode (W : Int) = some (decide (a < 2 ^ W)) := by
  simp only [addr_valid, hm, shr_u64_of_lt a W hW]
  simp only [Bool.false_eq_true, if_false, Option.map_some', Option.some_inj]
  rw [Bool.eq_iff_iff]
  simp [Nat.div_eq_zero_iff (Nat.two_pow_pos W)]

/-- The level-counting loop on Sv39x4. -/
theorem count_levels_sv39x4 : count_levels sbi_ptw_sv39x4 9 0 0 = some (4, 41) := by decide

/-- The level-counting loop on Sv39. -/
theorem count_levels_sv39 : count_levels sbi_ptw_sv39 9 0 0 = some (4, 39) := by decide

/-- A pass through the level-loop body ends by returning `SBI_EINVAL` or in
`sbi_panic("todo")`, after exactly one loader call and without writing the output. -/
theorem level_result_ends (mode : sbi_ptw_mode) (csr : sbi_ptw_csr) (s : State) (ea : Nat) :
    ∃ s1, (level_result mode csr s ea = Outcome.ret SBI_EINVAL s1 ∨
        level_result mode csr s ea = Outcome.panic PanicMsg.todo s1) ∧
      loader_calls s1.trace = loader_calls s.trace ++ [ea] ∧ s1.out = s.out := by
  cases h : level_result mode csr s ea with
  | ret code s1 =>
    obtain ⟨hcode, _, hout, hcalls⟩ := level_result_ret mode csr s ea code s1 h
    exact ⟨s1, Or.inl (by rw [hcode]), hcalls, hout⟩
  | panic msg s1 =>
    obtain ⟨hmsg, _, hout, hcalls⟩ := level_result_panic mode csr s ea msg s1 h
    exact ⟨s1, Or.inr (by rw [hmsg]), hcalls, hout⟩
  | undefined => exact absurd h (level_result_defined mode csr s ea)

/-- C11: with stage-1 bare and stage-2 Sv39x4, a guest address with one of its bits
41 to 63 set makes `sbi_ptw_translate` return `SBI_EINVAL` with cause 21 and zero
`tinst`, `tval`, `tval2`, with no entry loaded (trace, hart and output unchanged);
and an address below `2 ^ 41` passes the canonicality check of the Sv39x4 walk,
whose total width is 41. -/
theorem sbi_ptw_translate_rejects_high_gva (gva : Nat) (csr : sbi_ptw_csr) (s : State)
    (a2 : Nat)
    (h1 : csr.vsatp >>> 60 = 0) (h2 : csr.hgatp >>> 60 = 8)
    (hbit : ∃ i, 41 ≤ i ∧ i < 64 ∧ gva.testBit i = true)
    (ha2 : a2 < 2 ^ 41) :
    sbi_ptw_translate gva csr s =
      Outcome.ret SBI_EINVAL
        { trap := { cause := 21, tinst := 0, tval := 0, tval2 := 0 }
          out := s.out, hw := s.hw, trace := s.trace } ∧
    count_levels sbi_ptw_sv39x4 9 0 0 = some (4, 41) ∧
    addr_valid a2 sbi_ptw_sv39x4 41 = some true := by
  have hv2 := addr_valid_unsigned_eq sbi_ptw_sv39x4 a2 41 rfl (by norm_num)
  have hv := addr_valid_unsigned_eq sbi_ptw_sv39x4 gva 41 rfl (by norm_num)
  obtain ⟨i, hi, _, hb⟩ := hbit
  have hge : 2 ^ 41 ≤ gva :=
    le_trans (Nat.pow_le_pow_right (by norm_num) hi) (Nat.testBit_implies_ge hb)
  simp only [Nat.cast_ofNat] at hv hv2
  rw [decide_eq_false (by omega)] at hv
  rw [decide_eq_true ha2] at hv2
  refine ⟨?_, count_levels_sv39x4, hv2⟩
  unfold sbi_ptw_translate
  simp only [SATP_MODE_SHIFT, SATP_MODE_OFF, HGATP_MODE_SHIFT, HGATP_MODE_SV39X4]
  rw [if_neg (by simpa using h1), if_neg (by simpa using h2)]
  unfold sbi_pt_walk
  rw [count_levels_sv39x4]
  simp only [hv]
  rfl

/-- Instance of C11: the sample context and the address `2 ^ 41` (bit 41 set); the
address `0x1234` is below `2 ^ 41`. -/
theorem sbi_ptw_translate_rejects_high_gva_witness :
    sample_csr.vsatp >>> 60 = 0 ∧ sample_csr.hgatp >>> 60 = 8 ∧
    (∃ i, 41 ≤ i ∧ i < 64 ∧ (2 ^ 41 : Nat).testBit i = true) ∧ 0x1234 < 2 ^ 41 ∧
    sbi_ptw_translate (2 ^ 41) sample_csr sample_state =
      Outcome.ret SBI_EINVAL
        { trap := { cause := 21, tinst := 0, tval := 0, tval2 := 0 }
          out := sample_state.out, hw := sample_state.hw, trace := sample_state.trace } ∧
    count_levels sbi_ptw_sv39x4 9 0 0 = some (4, 41) ∧
    addr_valid 0x1234 sbi_ptw_sv39x4 41 = some true :=
  ⟨by decide, by decide, ⟨41, by decide, by decide, by decide⟩, by decide,
    sbi_ptw_translate_rejects_high_gva (2 ^ 41) sample_csr sample_state 0x1234
      (by decide) (by decide) ⟨41, by decide, by decide, by decide⟩ (by decide)⟩

/-- The entry address of the top level of Sv39x4 for an address below `2 ^ 41`. -/
theorem entry_addr_of_sv39x4 (a root : Nat) (ha : a < 2 ^ 41) :
    entry_addr_of sbi_ptw_sv39x4 a root 3 41 = (root + 8 * (a >>> 30)) % 2 ^ 64 := by
  have hp : parts_at sbi_ptw_sv39x4 3 = 11 := by decide
  have hidx : a >>> 30 < 2 ^ 11 := by
    rw [Nat.shiftRight_eq_div_pow, Nat.div_lt_iff_lt_mul (by norm_num)]
    omega
  unfold entry_addr_of
  rw [hp]
  have e : ((41 : Int) - ((11 : Nat) : Int)).toNat = 30 := by decide
  rw [e, Nat.and_pow_two_sub_one_eq_mod, Nat.mod_eq_of_lt hidx, Nat.mul_comm]

/-- C12: for Sv39x4, any root and any address `a` below `2 ^ 41`, the walk calls the
loader exactly once, for the entry address `(root + 8 * (a >> 30)) mod 2 ^ 64`; the
index `a >> 30` is the 11-bit field of `a` at bit 30 and is below 2048, the offset
`8 * (a >> 30)` is a multiple of 8 below 16384, and the entry address has the
remainder of the root modulo 8, so it is 8-byte aligned whenever the root is. -/
theorem sbi_pt_walk_sv39x4_first_entry (a root : Nat) (csr : sbi_ptw_csr) (s : State)
    (ha : a < 2 ^ 41) :
    (∃ s1, (sbi_pt_walk a root csr sbi_ptw_sv39x4 s = Outcome.ret SBI_EINVAL s1 ∨
          sbi_pt_walk a root csr sbi_ptw_sv39x4 s = Outcome.panic PanicMsg.todo s1) ∧
        loader_calls s1.trace = loader_calls s.trace ++ [(root + 8 * (a >>> 30)) % 2 ^ 64]) ∧
    a >>> 30 = a / 2 ^ 30 % 2 ^ 11 ∧
    a >>> 30 < 2048 ∧
    8 * (a >>> 30) % 8 = 0 ∧
    8 * (a >>> 30) < 16384 ∧
    (root + 8 * (a >>> 30)) % 2 ^ 64 % 8 = root % 8 := by
  have hidx : a >>> 30 < 2048 := by
    rw [Nat.shiftRight_eq_div_pow, Nat.div_lt_iff_lt_mul (by norm_num)]
    omega
  have hv : addr_valid a sbi_ptw_sv39x4 41 = some true := by
    have := addr_valid_unsigned_eq sbi_ptw_sv39x4 a 41 rfl (by norm_num)
    simp only [Nat.cast_ofNat] at this
    rw [this, decide_eq_true ha]
  have hp : parts_at sbi_ptw_sv39x4 3 = 11 := by decide
  have hwalk : sbi_pt_walk a root csr sbi_ptw_sv39x4 s =
      level_result sbi_ptw_sv39x4 csr s ((root + 8 * (a >>> 30)) % 2 ^ 64) := by
    rw [sbi_pt_walk_canonical a root csr sbi_ptw_sv39x4 s 4 41 count_levels_sv39x4
        (by norm_num) hv,
      walk_level_eq_result a csr sbi_ptw_sv39x4 (4 - 1) 41 root s (by norm_num)
        (by rw [hp]; norm_num) (by rw [hp]; norm_num) (by rw [hp]; norm_num)]
    rw [← entry_addr_of_sv39x4 a root ha]
  refine ⟨?_, ?_, hidx, by omega, by omega, by omega⟩
  · obtain ⟨s1, hs1, hcalls, _⟩ :=
      level_result_ends sbi_ptw_sv39x4 csr s ((root + 8 * (a >>> 30)) % 2 ^ 64)
    exact ⟨s1, by rw [hwalk]; exact hs1, hcalls⟩
  · rw [Nat.shiftRight_eq_div_pow]
    exact (Nat.mod_eq_of_lt (by rw [← Nat.shiftRight_eq_div_pow]; exact hidx)).symm

/-- Instance of C12: root `0x80000000` and the address `0xC0001234` (index 3). -/
theorem sbi_pt_walk_sv39x4_first_entry_witness :
    0xC0001234 < 2 ^ 41 ∧
    (∃ s1, (sbi_pt_walk 0xC0001234 0x80000000 sample_csr sbi_ptw_sv39x4 sample_state =
            Outcome.ret SBI_EINVAL s1 ∨
          sbi_pt_walk 0xC0001234 0x80000000 sample_csr sbi_ptw_sv39x4 sample_state =
            Outcome.panic PanicMsg.todo s1) ∧
        loader_calls s1.trace = loader_calls sample_state.trace ++
          [(0x80000000 + 8 * (0xC0001234 >>> 30)) % 2 ^ 64]) ∧
    (0x80000000 + 8 * (0xC0001234 >>> 30)) % 2 ^ 64 = 0x80000018 :=
  ⟨by decide,
    (sbi_pt_walk_sv39x4_first_entry 0xC0001234 0x80000000 sample_csr sample_state
      (by decide)).1,
    by decide⟩

/-- C13: the level-counting loop of a geometry with its zero terminator in slot `n`
ends with `num_levels = n` and `va_bits` the sum of the widths of slots 0 to `n - 1`;
for Sv39x4 `{12, 9, 9, 11}` this is 4 parts and width 41, for Sv39 `{12, 9, 9, 9}`
it is 4 parts and width 39. -/
theorem count_levels_total_width (mode : sbi_ptw_mode) (n : Nat)
    (ht : terminator_at mode n) :
    count_levels mode 9 0 0 = some (n, (width_sum mode 0 n : Int)) ∧
    count_levels sbi_ptw_sv39x4 9 0 0 = some (4, 41) ∧
    width_sum sbi_ptw_sv39x4 0 4 = 12 + 9 + 9 + 11 ∧
    count_levels sbi_ptw_sv39 9 0 0 = some (4, 39) ∧
    width_sum sbi_ptw_sv39 0 4 = 12 + 9 + 9 + 9 := by
  refine ⟨?_, count_levels_sv39x4, by decide, count_levels_sv39, by decide⟩
  have h := count_levels_of_terminator mode n ht 9 0 0 (Nat.zero_le _) (by have := ht.1; omega)
  rw [h, zero_add]

/-- Instance of C13: Sv39x4, whose terminator is in slot 4. -/
theorem count_levels_total_width_witness :
    terminator_at sbi_ptw_sv39x4 4 ∧
    count_levels sbi_ptw_sv39x4 9 0 0 = some (4, (width_sum sbi_ptw_sv39x4 0 4 : Int)) :=
  ⟨by unfold terminator_at; decide,
    (count_levels_total_width sbi_ptw_sv39x4 4 (by unfold terminator_at; decide)).1⟩

/-! ## What a walk can and cannot do -/

/-- The cause remap keeps a nonzero cause nonzero. -/
theorem convert_pf_to_gpf_ne_zero (c : Nat) (h : c ≠ 0) : convert_pf_to_gpf c ≠ 0 := by
  unfold convert_pf_to_gpf
  split_ifs <;> first | exact h | decide

/-- A walk that returns: the code is `SBI_EINVAL`, the cause is nonzero, the output
buffer is as before, and the loader was called at most once. -/
theorem sbi_pt_walk_ret (addr pt_root : Nat) (csr : sbi_ptw_csr) (mode : sbi_ptw_mode)
    (s : State) (code : Int) (s1 : State)
    (h : sbi_pt_walk addr pt_root csr mode s = Outcome.ret code s1) :
    code = SBI_EINVAL ∧ s1.trap.cause ≠ 0 ∧ s1.out = s.out ∧
      (loader_calls s1.trace = loader_calls s.trace ∨
        ∃ ea, loader_calls s1.trace = loader_calls s.trace ++ [ea]) := by
  rcases sbi_pt_walk_cases addr pt_root csr mode s with hu | hr | hd | ⟨ea, hl⟩
  · rw [hu] at h; exact Outcome.noConfusion h
  · rw [hr] at h
    simp only [Outcome.ret.injEq] at h
    obtain ⟨rfl, rfl⟩ := h
    exact ⟨rfl, by simp [load_page_fault, CAUSE_LOAD_PAGE_FAULT], rfl, Or.inl rfl⟩
  · rw [hd] at h; exact Outcome.noConfusion h
  · rw [hl] at h
    obtain ⟨hc, hcause, hout, hcalls⟩ := level_result_ret mode csr s ea code s1 h
    exact ⟨hc, hcause, hout, Or.inr ⟨ea, hcalls⟩⟩

/-- A translation that returns comes from a walk that returned the same code, and its
final state is the final state of the walk with the cause remapped. -/
theorem sbi_ptw_translate_ret (gva : Nat) (csr : sbi_ptw_csr) (s : State)
    (code : Int) (s2 : State)
    (h : sbi_ptw_translate gva csr s = Outcome.ret code s2) :
    ∃ s1, sbi_pt_walk gva (pt_root_of csr.hgatp) csr sbi_ptw_sv39x4 s = Outcome.ret code s1 ∧
      s2 = remap_cause s1 := by
  unfold sbi_ptw_translate at h
  split_ifs at h
  split at h
  · rename_i code1 s1 hw
    simp only [Outcome.ret.injEq] at h
    obtain ⟨hcode, hs⟩ := h
    exact ⟨s1, by rw [hw, hcode], hs.symm⟩
  · exact Outcome.noConfusion h
  · exact Outcome.noConfusion h

/-- C14: `sbi_pt_walk` never completes a translation. When it returns, for any
geometry, loader, root, address and initial state, the code is `SBI_EINVAL` (not 0),
the cause in the FaultInfo is nonzero, the loader has been called at most once, and
the output buffer holds what it held before. When `sbi_ptw_translate` returns, its
code is `SBI_EINVAL` as well, the cause is nonzero and the output buffer is unwritten. -/
theorem sbi_pt_walk_never_completes (addr pt_root : Nat) (csr : sbi_ptw_csr)
    (mode : sbi_ptw_mode) (s : State) (code : Int) (s1 : State)
    (gva : Nat) (csr2 : sbi_ptw_csr) (s2 : State) (code2 : Int) (s3 : State)
    (hw : sbi_pt_walk addr pt_root csr mode s = Outcome.ret code s1)
    (ht : sbi_ptw_translate gva csr2 s2 = Outcome.ret code2 s3) :
    (code = SBI_EINVAL ∧ code ≠ 0 ∧ s1.trap.cause ≠ 0 ∧
      (loader_calls s1.trace = loader_calls s.trace ∨
        ∃ ea, loader_calls s1.trace = loader_calls s.trace ++ [ea]) ∧
      s1.out = s.out) ∧
    (code2 = SBI_EINVAL ∧ code2 ≠ 0 ∧ s3.trap.cause ≠ 0 ∧ s3.out = s2.out) := by
  have hne : SBI_EINVAL ≠ 0 := by decide
  obtain ⟨hc, hcause, hout, hcalls⟩ := sbi_pt_walk_ret addr pt_root csr mode s code s1 hw
  obtain ⟨s4, hw2, hs3⟩ := sbi_ptw_translate_ret gva csr2 s2 code2 s3 ht
  obtain ⟨hc2, hcause2, hout2, _⟩ :=
    sbi_pt_walk_ret gva (pt_root_of csr2.hgatp) csr2 sbi_ptw_sv39x4 s2 code2 s4 hw2
  refine ⟨⟨hc, by rw [hc]; exact hne, hcause, hcalls, hout⟩, hc2, by rw [hc2]; exact hne, ?_, ?_⟩
  · rw [hs3]; exact convert_pf_to_gpf_ne_zero _ hcause2
  · rw [hs3]; exact hout2

/-- Instance of C14: the Sv39x4 walk and the translation of `0x80000000` in the sample
context, both ending at the root entry whose valid bit is clear. -/
theorem sbi_pt_walk_never_completes_witness :
    sbi_pt_walk 0x80000000 0x80000000 sample_csr sbi_ptw_sv39x4 sample_state =
      Outcome.ret SBI_EINVAL
        { trap := { cause := 13, tinst := 0, tval := 0, tval2 := 0 }
          out := sample_state.out
          hw := (sbi_load_pte_pa 0x80000010 sample_csr sample_state.trap sample_state.hw).2.2
          trace := [Event.printf_load_pte 0x80000010, Event.call_load_pte 0x80000010,
             Event.printf_pte_is 0x20, Event.printf_pte_not_valid] } ∧
    sbi_ptw_translate 0x80000000 sample_csr sample_state =
      Outcome.ret SBI_EINVAL
        { trap := { cause := 21, tinst := 0, tval := 0, tval2 := 0 }
          out := sample_state.out
          hw := (sbi_load_pte_pa 0x80000010 sample_csr sample_state.trap sample_state.hw).2.2
          trace := [Event.printf_load_pte 0x80000010, Event.call_load_pte 0x80000010,
             Event.printf_pte_is 0x20, Event.printf_pte_not_valid] } ∧
    SBI_EINVAL ≠ 0 ∧ (21 : Nat) ≠ 0 :=
  ⟨rfl, rfl,
    (sbi_pt_walk_never_completes 0x80000000 0x80000000 sample_csr sbi_ptw_sv39x4 sample_state
      SBI_EINVAL _ 0x80000000 sample_csr sample_state SBI_EINVAL _ rfl rfl).2.2.1,
    (sbi_pt_walk_never_completes 0x80000000 0x80000000 sample_csr sbi_ptw_sv39x4 sample_state
      SBI_EINVAL _ 0x80000000 sample_csr sample_state SBI_EINVAL _ rfl rfl).2.2.2.1⟩

/-- A walk of a canonical address under a geometry without index level ends in
`sbi_panic("dunno")` with nothing changed. -/
theorem sbi_pt_walk_no_index_level (addr pt_root : Nat) (csr : sbi_ptw_csr)
    (mode : sbi_ptw_mode) (s : State) (n : Nat) (w : Int)
    (hc : count_levels mode 9 0 0 = some (n, w)) (hn : n ≤ 1)
    (hv : addr_valid addr mode w = some true) :
    sbi_pt_walk addr pt_root csr mode s = Outcome.panic PanicMsg.dunno s := by
  unfold sbi_pt_walk
  rw [hc]
  simp only [hv, walk_levels]
  rw [if_neg (by omega)]

/-- A walk of a canonical address under a geometry with at least one index level is
`level_result` at the entry address of the top level. -/
theorem sbi_pt_walk_canonical_result (addr pt_root : Nat) (csr : sbi_ptw_csr)
    (mode : sbi_ptw_mode) (s : State) (n : Nat) (w : Int)
    (hc : count_levels mode 9 0 0 = some (n, w)) (hn : 2 ≤ n)
    (hv : addr_valid addr mode w = some true) :
    sbi_pt_walk addr pt_root csr mode s =
      level_result mode csr s (entry_addr_of mode addr pt_root (n - 1) w) := by
  obtain ⟨h8, _, hp, hs0, hs1⟩ :=
    top_level_bounds mode n w hc hn (addr_valid_width_le addr mode w true hv)
  rw [sbi_pt_walk_canonical addr pt_root csr mode s n w hc hn hv,
    walk_level_eq_result addr csr mode (n - 1) w pt_root s h8 hp (by omega) hs1]

/-- C15: for a canonical address, `sbi_pt_walk` ends in `sbi_panic` exactly when the
geometry has no index level (at most one part) or the loader returns the first entry
without fault and with bit 0 set; and it always ends either in `sbi_panic` or by
returning `SBI_EINVAL`, so it returns `SBI_EINVAL` in every other case. -/
theorem sbi_pt_walk_abort_iff (addr pt_root : Nat) (csr : sbi_ptw_csr)
    (mode : sbi_ptw_mode) (s : State) (n : Nat) (w : Int)
    (hc : count_levels mode 9 0 0 = some (n, w))
    (hv : addr_valid addr mode w = some true) :
    ((∃ msg s1, sbi_pt_walk addr pt_root csr mode s = Outcome.panic msg s1) ↔
      (n ≤ 1 ∨
        ((mode.load_pte (entry_addr_of mode addr pt_root (n - 1) w) csr s.trap s.hw).2.1.cause = 0 ∧
         (mode.load_pte (entry_addr_of mode addr pt_root (n - 1) w) csr s.trap s.hw).1.testBit 0
            = true))) ∧
    ((∃ msg s1, sbi_pt_walk addr pt_root csr mode s = Outcome.panic msg s1) ∨
      (∃ s1, sbi_pt_walk addr pt_root csr mode s = Outcome.ret SBI_EINVAL s1)) := by
  by_cases hn : n ≤ 1
  · have h := sbi_pt_walk_no_index_level addr pt_root csr mode s n w hc hn hv
    exact ⟨⟨fun _ => Or.inl hn, fun _ => ⟨_, _, h⟩⟩, Or.inl ⟨_, _, h⟩⟩
  · have h := sbi_pt_walk_canonical_result addr pt_root csr mode s n w hc (by omega) hv
    rw [h]
    unfold level_result
    by_cases hcause :
        (mode.load_pte (entry_addr_of mode addr pt_root (n - 1) w) csr s.trap s.hw).2.1.cause ≠ 0
    · rw [if_pos hcause]
      refine ⟨⟨?_, ?_⟩, Or.inr ⟨_, rfl⟩⟩
      · rintro ⟨msg, s1, hp⟩; exact Outcome.noConfusion hp
      · rintro (h1 | ⟨h0, _⟩)
        · exact absurd h1 hn
        · exact absurd h0 hcause
    · rw [if_neg hcause]
      by_cases hbit :
          (mode.load_pte (entry_addr_of mode addr pt_root (n - 1) w) csr s.trap s.hw).1.testBit 0
            = false
      · rw [if_pos hbit]
        refine ⟨⟨?_, ?_⟩, Or.inr ⟨_, rfl⟩⟩
        · rintro ⟨msg, s1, hp⟩; exact Outcome.noConfusion hp
        · rintro (h1 | ⟨_, hb⟩)
          · exact absurd h1 hn
          · rw [hbit] at hb; exact Bool.noConfusion hb
      · rw [if_neg hbit]
        refine ⟨⟨fun _ => Or.inr ⟨by simpa using hcause, by simpa using hbit⟩,
          fun _ => ⟨_, _, rfl⟩⟩, Or.inl ⟨_, _, rfl⟩⟩

/-- Instance of C15: the single-level sample geometry and the address `0x1234`, whose
root entry is valid. -/
theorem sbi_pt_walk_abort_iff_witness :
    count_levels sample_one_level 9 0 0 = some (2, 21) ∧
    addr_valid 0x1234 sample_one_level 21 = some true ∧
    ((∃ msg s1, sbi_pt_walk 0x1234 0x80000000 sample_csr sample_one_level sample_state =
        Outcome.panic msg s1) ↔
      (2 ≤ 1 ∨
        ((sample_one_level.load_pte (entry_addr_of sample_one_level 0x1234 0x80000000 (2 - 1) 21)
            sample_csr sample_state.trap sample_state.hw).2.1.cause = 0 ∧
         (sample_one_level.load_pte (entry_addr_of sample_one_level 0x1234 0x80000000 (2 - 1) 21)
            sample_csr sample_state.trap sample_state.hw).1.testBit 0 = true))) :=
  ⟨by decide, by decide,
    (sbi_pt_walk_abort_iff 0x1234 0x80000000 sample_csr sample_one_level sample_state 2 21
      (by decide) (by decide)).1⟩

/-- C16: `sbi_load_pte_gpa` returns the entry 0 and sets the cause to 0, leaving
`tinst`, `tval`, `tval2` and the hart as they were; hence the Sv39 walk of a canonical
address ends at the first level: it returns `SBI_EINVAL` with cause 13 and zero
`tinst`, `tval`, `tval2`, after one loader call. -/
theorem sbi_load_pte_gpa_zero_read (ea : Nat) (csr : sbi_ptw_csr) (trap : sbi_trap_info)
    (m : Machine) (addr pt_root : Nat) (s : State)
    (hv : addr_valid addr sbi_ptw_sv39 39 = some true) :
    sbi_load_pte_gpa ea csr trap m =
      (0, { cause := 0, tinst := trap.tinst, tval := trap.tval, tval2 := trap.tval2 }, m) ∧
    sbi_pt_walk addr pt_root csr sbi_ptw_sv39 s =
      Outcome.ret SBI_EINVAL
        { trap := { cause := 13, tinst := 0, tval := 0, tval2 := 0 }
          out := s.out, hw := s.hw
          trace := s.trace ++
            [Event.printf_load_pte (entry_addr_of sbi_ptw_sv39 addr pt_root 3 39),
             Event.call_load_pte (entry_addr_of sbi_ptw_sv39 addr pt_root 3 39),
             Event.printf_pte_is 0, Event.printf_pte_not_valid] } := by
  refine ⟨rfl, ?_⟩
  rw [sbi_pt_walk_canonical_result addr pt_root csr sbi_ptw_sv39 s 4 39 count_levels_sv39
    (by norm_num) hv]
  unfold level_result
  rw [if_neg (by simp [sbi_ptw_sv39, sbi_load_pte_gpa]),
    if_pos (by simp [sbi_ptw_sv39, sbi_load_pte_gpa])]
  rfl

/-- Instance of C16: the Sv39 walk of the canonical address `0xffffffc000001234`. -/
theorem sbi_load_pte_gpa_zero_read_witness :
    addr_valid 0xffffffc000001234 sbi_ptw_sv39 39 = some true ∧
    sbi_pt_walk 0xffffffc000001234 0x80000000 sample_csr sbi_ptw_sv39 sample_state =
      Outcome.ret SBI_EINVAL
        { trap := { cause := 13, tinst := 0, tval := 0, tval2 := 0 }
          out := sample_state.out, hw := sample_state.hw
          trace := sample_state.trace ++
            [Event.printf_load_pte
               (entry_addr_of sbi_ptw_sv39 0xffffffc000001234 0x80000000 3 39),
             Event.call_load_pte
               (entry_addr_of sbi_ptw_sv39 0xffffffc000001234 0x80000000 3 39),
             Event.printf_pte_is 0, Event.printf_pte_not_valid] } ∧
    entry_addr_of sbi_ptw_sv39 0xffffffc000001234 0x80000000 3 39 = 0x80000800 :=
  ⟨by decide,
    (sbi_load_pte_gpa_zero_read 0 sample_csr sample_state.trap sample_state.hw
      0xffffffc000001234 0x80000000 sample_state (by decide)).2,
    by decide⟩

/-- C18: when `sbi_ptw_translate` returns, `sbi_pt_walk` has returned the same code,
and the final state differs from the state the walker left only in the cause: `tinst`,
`tval`, `tval2`, the output buffer, the hart and the trace are those of the walker,
and the output buffer is the one the call was entered with. -/
theorem sbi_ptw_translate_frame (gva : Nat) (csr : sbi_ptw_csr) (s : State)
    (code : Int) (s2 : State)
    (h : sbi_ptw_translate gva csr s = Outcome.ret code s2) :
    ∃ s1, sbi_pt_walk gva (pt_root_of csr.hgatp) csr sbi_ptw_sv39x4 s = Outcome.ret code s1 ∧
      s2.trap.tinst = s1.trap.tinst ∧ s2.trap.tval = s1.trap.tval ∧
      s2.trap.tval2 = s1.trap.tval2 ∧
      s2.out = s1.out ∧ s2.hw = s1.hw ∧ s2.trace = s1.trace ∧ s2.out = s.out := by
  obtain ⟨s1, hw, hs⟩ := sbi_ptw_translate_ret gva csr s code s2 h
  obtain ⟨_, _, hout, _⟩ :=
    sbi_pt_walk_ret gva (pt_root_of csr.hgatp) csr sbi_ptw_sv39x4 s code s1 hw
  refine ⟨s1, hw, ?_, ?_, ?_, ?_, ?_, ?_, ?_⟩ <;> rw [hs] <;> first | rfl | exact hout

/-- Instance of C18: the translation of `0xC0000000` in the sample context, where the
load of the root entry faults with cause 5. -/
theorem sbi_ptw_translate_frame_witness :
    sbi_ptw_translate 0xC0000000 sample_csr sample_state =
      Outcome.ret SBI_EINVAL
        { trap := { cause := 5, tinst := 0, tval := 0, tval2 := 0 }
          out := sample_state.out
          hw := (sbi_load_pte_pa 0x80000018 sample_csr sample_state.trap sample_state.hw).2.2
          trace := [Event.printf_load_pte 0x80000018, Event.call_load_pte 0x80000018,
             Event.printf_load_failed 5] } ∧
    ∃ s1, sbi_pt_walk 0xC0000000 (pt_root_of sample_csr.hgatp) sample_csr sbi_ptw_sv39x4
        sample_state = Outcome.ret SBI_EINVAL s1 ∧
      (0 : Nat) = s1.trap.tinst ∧ (0 : Nat) = s1.trap.tval ∧ (0 : Nat) = s1.trap.tval2 ∧
      sample_state.out = s1.out ∧
      (sbi_load_pte_pa 0x80000018 sample_csr sample_state.trap sample_state.hw).2.2 = s1.hw ∧
      [Event.printf_load_pte 0x80000018, Event.call_load_pte 0x80000018,
         Event.printf_load_failed 5] = s1.trace ∧
      sample_state.out = sample_state.out :=
  ⟨rfl, sbi_ptw_translate_frame 0xC0000000 sample_csr sample_state SBI_EINVAL _ rfl⟩

/-! ## Defined canonicality checks -/

/-- The canonicality check is defined when the total width is at most 63 for an
unsigned geometry and between 1 and 64 for a signed one. -/
theorem addr_valid_defined (mode : sbi_ptw_mode) (addr W : Nat)
    (hw : (mode.addr_signed = false ∧ W ≤ 63) ∨ (mode.addr_signed = true ∧ 1 ≤ W ∧ W ≤ 64)) :
    ∃ b, addr_valid addr mode (W : Int) = some b := by
  rcases hw with ⟨hm, h63⟩ | ⟨hm, h1, h64⟩
  · exact ⟨_, addr_valid_unsigned_eq mode addr W hm h63⟩
  · refine ⟨(to_int64 addr / 2 ^ (W - 1) == 0 || to_int64 addr / 2 ^ (W - 1) == -1), ?_⟩
    simp only [addr_valid, hm, if_true, shr_i64_of_lt _ W h1 h64, Option.map_some']

/-! ## Stale FaultInfo -/

/-- A pass through the level-loop body with an undefined shift, or at a level outside
the array, has no defined end. -/
theorem walk_level_undefined (addr : Nat) (csr : sbi_ptw_csr) (mode : sbi_ptw_mode)
    (level : Nat) (shift : Int) (node : Nat) (s : State)
    (h : ¬ (level < 8 ∧ parts_at mode level < 64 ∧
      0 ≤ shift - (parts_at mode level : Int) ∧ shift - (parts_at mode level : Int) < 64)) :
    walk_level addr csr mode level shift node s = Outcome.undefined := by
  by_cases hl : level < 8
  · by_cases hp : parts_at mode level < 64
    · have hone : shl_one_u64 (parts_at mode level) = some (2 ^ parts_at mode level) := by
        simp [shl_one_u64, hp]
      have hs : shr_u64 addr (shift - (parts_at mode level : Int)) = none := by
        unfold shr_u64
        rw [if_neg (fun hh => h ⟨hl, hp, hh.1, hh.2⟩)]
      unfold walk_level
      rw [read_parts_eq_some mode level hl]
      simp only [hone, hs]
    · have hone : shl_one_u64 (parts_at mode level) = none := by
        unfold shl_one_u64
        rw [if_neg hp]
      unfold walk_level
      rw [read_parts_eq_some mode level hl]
      simp only [hone]
  · unfold walk_level
    rw [read_parts_eq_none mode level (by omega)]

/-- With a loader that ignores the FaultInfo it is handed, a pass through the
level-loop body gives the same verdict from any FaultInfo and output buffer. -/
theorem level_result_verdict (mode : sbi_ptw_mode) (csr : sbi_ptw_csr) (hw : Machine)
    (tr1 tr2 : List Event) (t1 t2 : sbi_trap_info) (o1 o2 : sbi_ptw_out) (ea : Nat)
    (hl : loader_ignores_fault_info mode.load_pte csr hw) :
    (level_result mode csr { trap := t1, out := o1, hw := hw, trace := tr1 } ea).verdict =
      (level_result mode csr { trap := t2, out := o2, hw := hw, trace := tr2 } ea).verdict := by
  obtain ⟨hpte, hcause, _⟩ := hl ea t1 t2
  unfold level_result
  simp only [hpte, hcause]
  split_ifs <;> simp [Outcome.verdict, hcause]

/-- With a loader that ignores the FaultInfo it is handed, a walk gives the same
verdict from any FaultInfo and output buffer. -/
theorem sbi_pt_walk_verdict (addr pt_root : Nat) (csr : sbi_ptw_csr) (mode : sbi_ptw_mode)
    (hw : Machine) (tr1 tr2 : List Event) (t1 t2 : sbi_trap_info) (o1 o2 : sbi_ptw_out)
    (hl : loader_ignores_fault_info mode.load_pte csr hw) :
    (sbi_pt_walk addr pt_root csr mode { trap := t1, out := o1, hw := hw, trace := tr1 }).verdict =
      (sbi_pt_walk addr pt_root csr mode
        { trap := t2, out := o2, hw := hw, trace := tr2 }).verdict := by
  unfold sbi_pt_walk
  cases hc : count_levels mode 9 0 0 with
  | none => rfl
  | some nw =>
    obtain ⟨n, w⟩ := nw
    cases hv : addr_valid addr mode w with
    | none => simp only [hv]
    | some b =>
      cases b with
      | false => simp only [hv]; rfl
      | true =>
        simp only [hv, walk_levels]
        by_cases h1 : 1 ≤ n - 1
        · rw [if_pos h1, if_pos h1]
          by_cases hd : n - 1 < 8 ∧ parts_at mode (n - 1) < 64 ∧
              0 ≤ w - (parts_at mode (n - 1) : Int) ∧ w - (parts_at mode (n - 1) : Int) < 64
          · rw [walk_level_eq_result addr csr mode (n - 1) w pt_root _ hd.1 hd.2.1 hd.2.2.1
                hd.2.2.2,
              walk_level_eq_result addr csr mode (n - 1) w pt_root _ hd.1 hd.2.1 hd.2.2.1
                hd.2.2.2]
            exact level_result_verdict mode csr hw tr1 tr2 t1 t2 o1 o2 _ hl
          · rw [walk_level_undefined addr csr mode (n - 1) w pt_root _ hd,
              walk_level_undefined addr csr mode (n - 1) w pt_root _ hd]
        · rw [if_neg h1, if_neg h1]
          rfl

/-- The verdict of a translation in terms of the verdict of its walk. -/
theorem sbi_ptw_translate_verdict (gva : Nat) (csr : sbi_ptw_csr) (s : State) :
    (sbi_ptw_translate gva csr s).verdict =
      if csr.vsatp >>> 60 ≠ 0 then Verdict.aborted PanicMsg.not_bare
      else if csr.hgatp >>> 60 ≠ 8 then Verdict.aborted PanicMsg.not_sv39x4
      else
        match (sbi_pt_walk gva (pt_root_of csr.hgatp) csr sbi_ptw_sv39x4 s).verdict with
        | Verdict.returned code cause => Verdict.returned code (convert_pf_to_gpf cause)
        | v => v := by
  unfold sbi_ptw_translate
  simp only [SATP_MODE_SHIFT, SATP_MODE_OFF, HGATP_MODE_SHIFT, HGATP_MODE_SV39X4]
  split_ifs
  · rfl
  · rfl
  · cases sbi_pt_walk gva (pt_root_of csr.hgatp) csr sbi_ptw_sv39x4 s <;> rfl

/-- The guest-physical loader ignores the FaultInfo it is handed. -/
theorem sbi_load_pte_gpa_ignores_fault_info (csr : sbi_ptw_csr) (m : Machine) :
    loader_ignores_fault_info sbi_load_pte_gpa csr m := by
  intro ea t1 t2
  exact ⟨rfl, rfl, rfl⟩

/-- The physical loader ignores the FaultInfo it is handed when the cause written by
the landing path of the hart does not depend on the FaultInfo found there. -/
theorem sbi_load_pte_pa_ignores_fault_info (csr : sbi_ptw_csr) (m : Machine)
    (hland : ∀ c t1 t2, (m.landing c t1).cause = (m.landing c t2).cause) :
    loader_ignores_fault_info sbi_load_pte_pa csr m := by
  intro ea t1 t2
  refine ⟨?_, ?_, rfl⟩
  · simp only [sbi_load_pte_pa]
    cases m.mem ea <;> rfl
  · simp only [sbi_load_pte_pa]
    cases m.mem ea with
    | value v => rfl
    | fault c => exact hland c _ _

/-- C19: with a loader that ignores the FaultInfo it is handed (it resets the cause
first, as `sbi_load_pte_gpa` does on every hart and `sbi_load_pte_pa` does on a hart
whose landing path writes a cause of its own), two runs of `sbi_pt_walk`, and two runs
of `sbi_ptw_translate`, that differ only in the initial FaultInfo and output buffer
have the same verdict: both abort with the same message, or both return the same code
with the same cause. -/
theorem fault_info_write_only (addr pt_root : Nat) (csr : sbi_ptw_csr) (mode : sbi_ptw_mode)
    (gva : Nat) (csr2 : sbi_ptw_csr)
    (hw : Machine) (tr : List Event) (t1 t2 : sbi_trap_info) (o1 o2 : sbi_ptw_out)
    (hl : loader_ignores_fault_info mode.load_pte csr hw)
    (hl2 : loader_ignores_fault_info sbi_load_pte_pa csr2 hw) :
    (sbi_pt_walk addr pt_root csr mode { trap := t1, out := o1, hw := hw, trace := tr }).verdict =
      (sbi_pt_walk addr pt_root csr mode
        { trap := t2, out := o2, hw := hw, trace := tr }).verdict ∧
    (sbi_ptw_translate gva csr2 { trap := t1, out := o1, hw := hw, trace := tr }).verdict =
      (sbi_ptw_translate gva csr2 { trap := t2, out := o2, hw := hw, trace := tr }).verdict ∧
    loader_ignores_fault_info sbi_load_pte_gpa csr hw := by
  refine ⟨sbi_pt_walk_verdict addr pt_root csr mode hw tr tr t1 t2 o1 o2 hl, ?_,
    sbi_load_pte_gpa_ignores_fault_info csr hw⟩
  rw [sbi_ptw_translate_verdict, sbi_ptw_translate_verdict,
    sbi_pt_walk_verdict gva (pt_root_of csr2.hgatp) csr2 sbi_ptw_sv39x4 hw tr tr t1 t2 o1 o2 hl2]

/-- Instance of C19: Sv39x4 on the sample hart, from a clean FaultInfo and from one
with the stale cause 99; the walk and the translation of `0x80000000` report the
cause 13, respectively 21, in both runs. -/
theorem fault_info_write_only_witness :
    loader_ignores_fault_info sbi_ptw_sv39x4.load_pte sample_csr sample_hw ∧
    loader_ignores_fault_info sbi_load_pte_pa sample_csr sample_hw ∧
    (sbi_pt_walk 0x80000000 0x80000000 sample_csr sbi_ptw_sv39x4
        { trap := { cause := 0, tinst := 0, tval := 0, tval2 := 0 }, out := { addr := 0 },
          hw := sample_hw, trace := [] }).verdict =
      (sbi_pt_walk 0x80000000 0x80000000 sample_csr sbi_ptw_sv39x4
        { trap := { cause := 99, tinst := 1, tval := 2, tval2 := 3 }, out := { addr := 5 },
          hw := sample_hw, trace := [] }).verdict ∧
    (sbi_ptw_translate 0x80000000 sample_csr
        { trap := { cause := 0, tinst := 0, tval := 0, tval2 := 0 }, out := { addr := 0 },
          hw := sample_hw, trace := [] }).verdict =
      (sbi_ptw_translate 0x80000000 sample_csr
        { trap := { cause := 99, tinst := 1, tval := 2, tval2 := 3 }, out := { addr := 5 },
          hw := sample_hw, trace := [] }).verdict ∧
    (sbi_ptw_translate 0x80000000 sample_csr
        { trap := { cause := 99, tinst := 1, tval := 2, tval2 := 3 }, out := { addr := 5 },
          hw := sample_hw, trace := [] }).verdict = Verdict.returned SBI_EINVAL 21 :=
  ⟨sbi_load_pte_pa_ignores_fault_info sample_csr sample_hw (fun _ _ _ => rfl),
    sbi_load_pte_pa_ignores_fault_info sample_csr sample_hw (fun _ _ _ => rfl),
    (fault_info_write_only 0x80000000 0x80000000 sample_csr sbi_ptw_sv39x4 0x80000000
      sample_csr sample_hw [] _ _ _ _
      (sbi_load_pte_pa_ignores_fault_info sample_csr sample_hw (fun _ _ _ => rfl))
      (sbi_load_pte_pa_ignores_fault_info sample_csr sample_hw (fun _ _ _ => rfl))).1,
    (fault_info_write_only 0x80000000 0x80000000 sample_csr sbi_ptw_sv39x4 0x80000000
      sample_csr sample_hw [] _ _ _ _
      (sbi_load_pte_pa_ignores_fault_info sample_csr sample_hw (fun _ _ _ => rfl))
      (sbi_load_pte_pa_ignores_fault_info sample_csr sample_hw (fun _ _ _ => rfl))).2.1,
    by decide⟩

/-! ## Shift amounts -/

/-- The sum of the widths up to slot `l` grows by the width of slot `l`. -/
theorem width_sum_succ (mode : sbi_ptw_mode) (l : Nat) :
    width_sum mode 0 (l + 1) = width_sum mode 0 l + parts_at mode l := by
  unfold width_sum
  rw [Finset.sum_Ico_succ_top (Nat.zero_le l)]

/-- The sum of the widths of the first slots is at most the sum over more slots. -/
theorem width_sum_mono (mode : sbi_ptw_mode) (l n : Nat) (h : l ≤ n) :
    width_sum mode 0 l ≤ width_sum mode 0 n := by
  induction n with
  | zero =>
    have : l = 0 := by omega
    rw [this]
  | succ n ih =>
    rcases Nat.eq_or_lt_of_le h with e | hlt
    · rw [e]
    · have := ih (by omega)
      rw [width_sum_succ]
      omega

/-- C20: for a zero-terminated geometry whose widths sum to a total `w` between 1 and
63, every shift of `addr_valid` and `sbi_pt_walk` has an amount from 0 to 63: the
canonicality shift by `w` and by `w - 1`; and at every index level `l`, the running
shift after `shift -= parts[l]`, which is the sum of the widths below `l` and so never
negative, and the amount `parts[l]` of the mask shift. The walk therefore has a
defined end. Sv39x4 (total 41) and Sv39 (total 39) are such geometries. -/
theorem shifts_in_range (mode : sbi_ptw_mode) (n : Nat) (addr pt_root : Nat)
    (csr : sbi_ptw_csr) (s : State)
    (ht : terminator_at mode n)
    (h1 : 1 ≤ width_sum mode 0 n) (h63 : width_sum mode 0 n ≤ 63) :
    count_levels mode 9 0 0 = some (n, (width_sum mode 0 n : Int)) ∧
    shr_u64 addr (width_sum mode 0 n : Int) = some (addr >>> width_sum mode 0 n) ∧
    shr_i64 (to_int64 addr) ((width_sum mode 0 n : Int) - 1) =
      some (to_int64 addr >>> (width_sum mode 0 n - 1)) ∧
    addr_valid addr mode (width_sum mode 0 n : Int) ≠ none ∧
    (∀ l, 1 ≤ l → l < n →
      (width_sum mode 0 (l + 1) : Int) - (parts_at mode l : Int) = (width_sum mode 0 l : Int) ∧
      width_sum mode 0 l ≤ 63 ∧ parts_at mode l ≤ 63 ∧
      shr_u64 addr ((width_sum mode 0 (l + 1) : Int) - (parts_at mode l : Int)) =
        some (addr >>> width_sum mode 0 l) ∧
      shl_one_u64 (parts_at mode l) = some (2 ^ parts_at mode l)) ∧
    sbi_pt_walk addr pt_root csr mode s ≠ Outcome.undefined ∧
    (terminator_at sbi_ptw_sv39x4 4 ∧ width_sum sbi_ptw_sv39x4 0 4 = 41) ∧
    (terminator_at sbi_ptw_sv39 4 ∧ width_sum sbi_ptw_sv39 0 4 = 39) := by
  have hc : count_levels mode 9 0 0 = some (n, (width_sum mode 0 n : Int)) := by
    have h := count_levels_of_terminator mode n ht 9 0 0 (Nat.zero_le _)
      (by have := ht.1; omega)
    rw [h, zero_add]
  have hdef : ∃ b, addr_valid addr mode (width_sum mode 0 n : Int) = some b := by
    apply addr_valid_defined
    cases hm : mode.addr_signed
    · exact Or.inl ⟨rfl, h63⟩
    · exact Or.inr ⟨rfl, h1, by omega⟩
  refine ⟨hc, ?_, ?_, ?_, ?_, ?_, ⟨by unfold terminator_at; decide, by decide⟩,
    ⟨by unfold terminator_at; decide, by decide⟩⟩
  · have hr : (0 : Int) ≤ (width_sum mode 0 n : Int) ∧ (width_sum mode 0 n : Int) < 64 := by
      omega
    simp [shr_u64, hr]
  · have hr : (0 : Int) ≤ (width_sum mode 0 n : Int) - 1 ∧
        (width_sum mode 0 n : Int) - 1 < 64 := by omega
    have e : ((width_sum mode 0 n : Int) - 1).toNat = width_sum mode 0 n - 1 := by omega
    simp only [shr_i64, hr, and_self, if_true, e]
  · obtain ⟨b, hb⟩ := hdef
    rw [hb]
    exact fun h => Option.noConfusion h
  · intro l _ hl
    have hs := width_sum_succ mode l
    have hm := width_sum_mono mode (l + 1) n (by omega)
    have hp : parts_at mode l < 64 := by omega
    have hr : (0 : Int) ≤ (width_sum mode 0 (l + 1) : Int) - (parts_at mode l : Int) ∧
        (width_sum mode 0 (l + 1) : Int) - (parts_at mode l : Int) < 64 := by omega
    have e : ((width_sum mode 0 (l + 1) : Int) - (parts_at mode l : Int)).toNat =
        width_sum mode 0 l := by omega
    refine ⟨by omega, by omega, by omega, ?_, ?_⟩
    · simp only [shr_u64, hr, and_self, if_true, e]
    · simp [shl_one_u64, hp]
  · obtain ⟨b, hb⟩ := hdef
    cases b with
    | false =>
      unfold sbi_pt_walk
      rw [hc]
      simp only [hb]
      exact fun h => Outcome.noConfusion h
    | true =>
      by_cases hn : n ≤ 1
      · rw [sbi_pt_walk_no_index_level addr pt_root csr mode s n _ hc hn hb]
        exact fun h => Outcome.noConfusion h
      · rw [sbi_pt_walk_canonical_result addr pt_root csr mode s n _ hc (by omega) hb]
        exact level_result_defined mode csr s _

/-- Instance of C20: Sv39x4 and the address `0x1234`. -/
theorem shifts_in_range_witness :
    terminator_at sbi_ptw_sv39x4 4 ∧ 1 ≤ width_sum sbi_ptw_sv39x4 0 4 ∧
    width_sum sbi_ptw_sv39x4 0 4 ≤ 63 ∧
    sbi_pt_walk 0x1234 0x80000000 sample_csr sbi_ptw_sv39x4 sample_state ≠ Outcome.undefined :=
  ⟨by unfold terminator_at; decide, by decide, by decide,
    (shifts_in_range sbi_ptw_sv39x4 4 0x1234 0x80000000 sample_csr sample_state
      (by unfold terminator_at; decide) (by decide) (by decide)).2.2.2.2.2.1⟩

/-! ## Termination -/

/-- On the hart the canonicality check has the C result when there is one. -/
theorem addr_valid_on_of_some (u : ShiftUnit) (addr : Nat) (mode : sbi_ptw_mode) (w : Int)
    (b : Bool) (h : addr_valid addr mode w = some b) : addr_valid_on u addr mode w = b := by
  unfold addr_valid at h
  unfold addr_valid_on
  cases hm : mode.addr_signed
  · rw [hm] at h
    simp only [Bool.false_eq_true, if_false] at h ⊢
    cases hs : shr_u64 addr w with
    | none => rw [hs] at h; exact Option.noConfusion h
    | some v =>
      rw [hs] at h
      simp only [Option.map_some', Option.some_inj] at h
      simp only [shr_u64_on, hs, Option.getD_some]
      exact h
  · rw [hm] at h
    simp only [if_true] at h ⊢
    cases hs : shr_i64 (to_int64 addr) (w - 1) with
    | none => rw [hs] at h; exact Option.noConfusion h
    | some v =>
      rw [hs] at h
      simp only [Option.map_some', Option.some_inj] at h
      simp only [shr_i64_on, hs, Option.getD_some]
      exact h

/-- On the hart one pass through the level-loop body at a slot of the array calls the
loader and ends as `level_result` describes, whatever the shifts yield. -/
theorem walk_level_on_result (u : ShiftUnit) (addr : Nat) (csr : sbi_ptw_csr)
    (mode : sbi_ptw_mode) (level : Nat) (shift : Int) (node : Nat) (s : State)
    (hl : level < 8) :
    ∃ ea, walk_level_on u addr csr mode level shift node s = level_result mode csr s ea := by
  refine ⟨(node + (shr_u64_on u addr (shift - (parts_at mode level : Int)) &&&
    (shl_one_u64_on u (parts_at mode level) - 1)) * 8) % 2 ^ 64, ?_⟩
  unfold walk_level_on level_result
  rw [read_parts_eq_some mode level hl]
  simp only [State.log, sizeof_sbi_pte_t, List.append_assoc, List.singleton_append,
    and_one_ne_one_iff]
  split_ifs <;> rfl

/-- On the hart one pass through the level-loop body is the pass of the C semantics
when the shifts of the latter are defined. -/
theorem walk_level_on_eq (u : ShiftUnit) (addr : Nat) (csr : sbi_ptw_csr)
    (mode : sbi_ptw_mode) (level : Nat) (shift : Int) (node : Nat) (s : State)
    (hl : level < 8) (hp : parts_at mode level < 64)
    (h0 : 0 ≤ shift - (parts_at mode level : Int))
    (h1 : shift - (parts_at mode level : Int) < 64) :
    walk_level_on u addr csr mode level shift node s =
      walk_level addr csr mode level shift node s := by
  have hsh : shr_u64 addr (shift - (parts_at mode level : Int)) =
      some (addr >>> (shift - (parts_at mode level : Int)).toNat) := by
    simp [shr_u64, h0, h1]
  have hone : shl_one_u64 (parts_at mode level) = some (2 ^ parts_at mode level) := by
    simp [shl_one_u64, hp]
  unfold walk_level_on walk_level
  rw [read_parts_eq_some mode level hl]
  simp only [shl_one_u64_on, shr_u64_on, hone, hsh, Option.getD_some]

/-- The walk on the hart is the walk of the C semantics whenever the latter has a
defined end. -/
theorem sbi_pt_walk_on_refines (u : ShiftUnit) (addr pt_root : Nat) (csr : sbi_ptw_csr)
    (mode : sbi_ptw_mode) (s : State) :
    sbi_pt_walk addr pt_root csr mode s = Outcome.undefined ∨
    sbi_pt_walk_on u addr pt_root csr mode s = sbi_pt_walk addr pt_root csr mode s := by
  unfold sbi_pt_walk sbi_pt_walk_on
  cases hc : count_levels mode 9 0 0 with
  | none => left; rfl
  | some nw =>
    obtain ⟨n, w⟩ := nw
    cases hv : addr_valid addr mode w with
    | none => left; simp only [hv]
    | some b =>
      have hon := addr_valid_on_of_some u addr mode w b hv
      cases b with
      | false =>
        right
        simp only [hv, hon]
        rfl
      | true =>
        simp only [hv, hon, if_true, walk_levels, walk_levels_on]
        by_cases h1 : 1 ≤ n - 1
        · rw [if_pos h1, if_pos h1]
          by_cases hd : n - 1 < 8 ∧ parts_at mode (n - 1) < 64 ∧
              0 ≤ w - (parts_at mode (n - 1) : Int) ∧ w - (parts_at mode (n - 1) : Int) < 64
          · right
            exact walk_level_on_eq u addr csr mode (n - 1) w pt_root s hd.1 hd.2.1 hd.2.2.1
              hd.2.2.2
          · left
            exact walk_level_undefined addr csr mode (n - 1) w pt_root s hd
        · rw [if_neg h1, if_neg h1]
          right; rfl

/-- C17: for a geometry with its zero terminator in slot `n` of the 8 slots, and any
loader, `sbi_pt_walk` terminates. The level-counting loop ends at the terminator with
`n ≤ 7` levels counted and the sum of the widths as total. The run on the hart,
whatever its shift instructions yield for an amount outside 0..63, ends by returning
or in `sbi_panic`, after at most one pass through the level loop, which is at most
`n - 1` passes (none when `n ≤ 1`); and this run is the run of the C semantics
whenever the latter has a defined end. -/
theorem sbi_pt_walk_terminates (u : ShiftUnit) (addr pt_root : Nat) (csr : sbi_ptw_csr)
    (mode : sbi_ptw_mode) (s : State) (n : Nat)
    (ht : terminator_at mode n) :
    count_levels mode 9 0 0 = some (n, (width_sum mode 0 n : Int)) ∧ n ≤ 7 ∧
    (∃ s1, ((∃ code, sbi_pt_walk_on u addr pt_root csr mode s = Outcome.ret code s1) ∨
        (∃ msg, sbi_pt_walk_on u addr pt_root csr mode s = Outcome.panic msg s1)) ∧
      ∃ calls, loader_calls s1.trace = loader_calls s.trace ++ calls ∧
        calls.length ≤ n - 1 ∧ calls.length ≤ 1) ∧
    (sbi_pt_walk addr pt_root csr mode s = Outcome.undefined ∨
      sbi_pt_walk_on u addr pt_root csr mode s = sbi_pt_walk addr pt_root csr mode s) := by
  have hc : count_levels mode 9 0 0 = some (n, (width_sum mode 0 n : Int)) := by
    have h := count_levels_of_terminator mode n ht 9 0 0 (Nat.zero_le _)
      (by have := ht.1; omega)
    rw [h, zero_add]
  have h8 : n < 8 := ht.1
  refine ⟨hc, by omega, ?_, sbi_pt_walk_on_refines u addr pt_root csr mode s⟩
  unfold sbi_pt_walk_on
  rw [hc]
  dsimp only
  by_cases hv : addr_valid_on u addr mode (width_sum mode 0 n : Int) = true
  · rw [if_pos hv]
    unfold walk_levels_on
    by_cases hn : 1 ≤ n - 1
    · rw [if_pos hn]
      obtain ⟨ea, hea⟩ := walk_level_on_result u addr csr mode (n - 1)
        (width_sum mode 0 n : Int) pt_root s (by omega)
      obtain ⟨s1, hs1, hcalls, _⟩ := level_result_ends mode csr s ea
      rw [hea]
      refine ⟨s1, ?_, [ea], hcalls, by simp; omega, by simp⟩
      rcases hs1 with h1 | h1
      · exact Or.inl ⟨_, h1⟩
      · exact Or.inr ⟨_, h1⟩
    · rw [if_neg hn]
      exact ⟨s, Or.inr ⟨_, rfl⟩, [], by simp, by simp, by simp⟩
  · rw [if_neg hv]
    exact ⟨_, Or.inl ⟨_, rfl⟩, [], by simp, by simp, by simp⟩

/-- Instance of C17: the geometry `{40, 40, 0}`, whose widths sum to 80, on a hart with
the shift instructions of RV64: the walk of the address 0 from the root `0x80000000`
returns `SBI_EINVAL` after one load, which faults. -/
theorem sbi_pt_walk_terminates_witness :
    terminator_at sample_wide 2 ∧
    count_levels sample_wide 9 0 0 = some (2, (width_sum sample_wide 0 2 : Int)) ∧
    width_sum sample_wide 0 2 = 80 ∧
    sbi_pt_walk_on rv64_shifts 0 0x80000000 sample_csr sample_wide sample_state =
      Outcome.ret SBI_EINVAL
        { trap := { cause := 5, tinst := 0, tval := 0, tval2 := 0 }
          out := sample_state.out
          hw := (sbi_load_pte_pa 0x80000000 sample_csr sample_state.trap sample_state.hw).2.2
          trace := [Event.printf_load_pte 0x80000000, Event.call_load_pte 0x80000000,
            Event.printf_load_failed 5] } :=
  ⟨by unfold terminator_at; decide,
    (sbi_pt_walk_terminates rv64_shifts 0 0x80000000 sample_csr sample_wide sample_state 2
      (by unfold terminator_at; decide)).1,
    by decide, rfl⟩

end SbiPtw
